import Mathlib

/-!
Verification of the Code Surveyor measurement engine.

This development gives a shallow embedding of the per-file line
classification, measurement, search and routine-analysis engine of the
`code_surveyor` repository (csmodules/NBNC.py, csmodules/Code.py,
csmodules/searchMixin.py, framework/utils.py) and proves properties of
that embedding.

Modelling conventions:
* a text line is a `List Char`; the input lines are assumed to be
  already decoded text (`utils.safe_string` is the identity on such
  lines);
* each compiled regular expression held in a module's configuration is
  modelled as a function field of `Config` (so theorems quantifying over
  `Config` quantify over arbitrary configured expressions); the fixed
  default expressions of the source are implemented as concrete
  executable matchers, faithful to Python `re` semantics with the
  `re.IGNORECASE | re.VERBOSE` flags the source compiles them with, for
  ASCII text;
* dictionaries keyed by strings are association lists in insertion
  order (Python 3.7+ dict semantics);
* integer counters are `Nat`/`Int` (Python ints are unbounded, so no
  wrap-around modelling is needed);
* `zlib.adler32` is implemented bit-for-bit on the UTF-8 bytes of the
  line.
-/

namespace Surveyor

/-- Left brace and right brace characters (written via code points). -/
def lbrace : Char := Char.ofNat 123

/-- Right brace character. -/
def rbrace : Char := Char.ofNat 125

/-- Backquote character. -/
def backquote : Char := Char.ofNat 96

/-- Single quote character. -/
def squote : Char := Char.ofNat 39

/-- Python whitespace (`str.isspace` / regex `\s`), ASCII range:
space, tab, newline, carriage return, vertical tab, form feed. -/
def isPySpace (c : Char) : Bool :=
  c = ' ' || c = '\t' || c = '\n' || c = Char.ofNat 13 ||
  c = Char.ofNat 11 || c = Char.ofNat 12

/-- Regex word character `\w` (ASCII): letters, digits, underscore. -/
def isWordChar (c : Char) : Bool :=
  c.isAlphanum || c = '_'

/-- Case-insensitive character comparison (`re.IGNORECASE`, ASCII). -/
def lowEq (a b : Char) : Bool :=
  a.toLower = b.toLower

/-- Python `str.lstrip()`: drop leading whitespace. -/
def pyLStrip (l : List Char) : List Char :=
  l.dropWhile (fun c => isPySpace c)

/-- Python `str.rstrip()`: drop trailing whitespace. -/
def pyRStrip (l : List Char) : List Char :=
  (l.reverse.dropWhile (fun c => isPySpace c)).reverse

/-- Python `str.strip()`: drop whitespace at both ends. -/
def pyStrip (l : List Char) : List Char :=
  pyRStrip (pyLStrip l)

/-- Does `pat` occur literally at the head of `l` (exact characters)? -/
def headIs : List Char → List Char → Bool
  | [], _ => true
  | _ :: _, [] => false
  | p :: ps, c :: cs => p = c && headIs ps cs

/-- Does `pat` occur at the head of `l`, case-insensitively? -/
def headIsCI : List Char → List Char → Bool
  | [], _ => true
  | _ :: _, [] => false
  | p :: ps, c :: cs => lowEq p c && headIsCI ps cs

/-- Python `pat in s` for strings: literal substring containment. -/
def containsSub (pat : List Char) : List Char → Bool
  | [] => headIs pat []
  | c :: cs => headIs pat (c :: cs) || containsSub pat cs

/-- Case-insensitive substring search returning the matched slice
(the text `match.group()` would yield for a literal pattern). -/
def findSubCI (pat : List Char) : List Char → Option (List Char)
  | [] => if headIsCI pat [] then some (List.take pat.length []) else none
  | c :: cs =>
      if headIsCI pat (c :: cs) then some (List.take pat.length (c :: cs))
      else findSubCI pat cs

/-- Python `str.split(sep, 1)[0]` for a literal separator: the text up
to the first occurrence of `sep`, or the whole string. -/
def splitOnceBefore (sep : List Char) : List Char → List Char
  | [] => []
  | c :: cs => if headIs sep (c :: cs) then [] else c :: splitOnceBefore sep cs

/-- Python `str.split(ch)` for a single-character separator. -/
def splitOnChar (ch : Char) (l : List Char) : List (List Char) :=
  match l with
  | [] => [[]]
  | c :: cs =>
      let rest := splitOnChar ch cs
      if c = ch then [] :: rest
      else match rest with
           | [] => [[c]]
           | g :: gs => (c :: g) :: gs

/-- Python `str.count(ch)` for a single character. -/
def countChar (ch : Char) (l : List Char) : Nat :=
  (l.filter (fun c => c = ch)).length

/-- Python `s.replace('', ' ')`: a space is inserted before every
character and after the last one (this is what `Code._measure_line_impl`
actually executes; it does NOT remove whitespace). -/
def pyReplaceEmptyWithSpace : List Char → List Char
  | [] => [' ']
  | c :: cs => ' ' :: c :: pyReplaceEmptyWithSpace cs

/-- Python `str.expandtabs(tabsize)`: replace tabs with spaces up to the
next multiple of `tabsize`; the column resets after newline characters. -/
def pyExpandTabsAux (tabsize : Nat) : Nat → List Char → List Char
  | _, [] => []
  | col, c :: cs =>
      if c = '\t' then
        let pad := if tabsize = 0 then 0 else tabsize - col % tabsize
        List.replicate pad ' ' ++ pyExpandTabsAux tabsize (col + pad) cs
      else if c = '\n' || c = Char.ofNat 13 then
        c :: pyExpandTabsAux tabsize 0 cs
      else
        c :: pyExpandTabsAux tabsize (col + 1) cs

/-- Python `str.expandtabs(tabsize)` from column 0. -/
def pyExpandTabs (tabsize : Nat) (l : List Char) : List Char :=
  pyExpandTabsAux tabsize 0 l

/-- UTF-8 encoding of one character, as byte values. -/
def utf8Char (c : Char) : List Nat :=
  let n := c.toNat
  if n < 128 then [n]
  else if n < 2048 then [192 + n / 64, 128 + n % 64]
  else if n < 65536 then [224 + n / 4096, 128 + n / 64 % 64, 128 + n % 64]
  else [240 + n / 262144, 128 + n / 4096 % 64, 128 + n / 64 % 64, 128 + n % 64]

/-- UTF-8 encoding of a string (Python `str.encode()`). -/
def utf8Bytes (l : List Char) : List Nat :=
  l.flatMap utf8Char

/-- One step of the Adler-32 rolling checksum. -/
def adler32Step (ab : Nat × Nat) (byte : Nat) : Nat × Nat :=
  let a := (ab.1 + byte) % 65521
  (a, (ab.2 + a) % 65521)

/-- `zlib.adler32(data, value)`: rolling checksum over the bytes of
`data`, continuing from the running value `value`. -/
def adler32 (data : List Nat) (value : Nat) : Nat :=
  let ab := data.foldl adler32Step (value % 65536, value / 65536 % 65536)
  ab.2 * 65536 + ab.1

/-- Increment (by `k`) the counter at block index `i` of a per-block
counter list (out-of-range indices leave the list unchanged, as such
states are unreachable from a survey start). -/
def bumpAt (l : List Nat) (i : Nat) (k : Nat) : List Nat :=
  l.set i (l.getD i 0 + k)

/-- Overwrite the counter at block index `i` with `v`. -/
def setAt (l : List Nat) (i : Nat) (v : Nat) : List Nat :=
  l.set i v

end Surveyor

namespace Surveyor

/-! ### Concrete default regular expressions

Each default pattern compiled in `NBNC._cs_init_config_options` /
`Code._cs_init_config_options` is implemented as an executable matcher.
All are compiled with `re.IGNORECASE | re.VERBOSE` in the source, so
whitespace inside the pattern (outside character classes) is
insignificant and letters match case-insensitively. -/

/-- Convert a string literal to the character-list representation. -/
def str (s : String) : List Char :=
  s.toList

/-- Is the next character (if any) a non-word character (regex `\b`
after a word character)? -/
def bdryAfter : List Char → Bool
  | [] => true
  | c :: _ => !(isWordChar c)

/-- Is the previous character (if any) a non-word character (regex `\b`
before a word character)? -/
def prevNonWord : Option Char → Bool
  | none => true
  | some p => !(isWordChar p)

/-- Word-boundary keyword test at the current position: `\b kw \b`
with `kw` starting and ending in word characters. -/
def kwHere (kw : List Char) (prev : Option Char) (s : List Char) : Bool :=
  prevNonWord prev && headIsCI kw s && bdryAfter (s.drop kw.length)

/-- Scan for `\b kw \b` for any `kw` in `kws` (regex search with word
boundaries, e.g. the decision/case/escape/import/class detectors). -/
def kwSearchAux (kws : List (List Char)) (prev : Option Char) : List Char → Bool
  | [] => false
  | c :: cs => kws.any (fun kw => kwHere kw prev (c :: cs)) || kwSearchAux kws (some c) cs

/-- Regex search for any keyword of `kws` delimited by word boundaries. -/
def kwSearch (kws : List (List Char)) (l : List Char) : Bool :=
  kwSearchAux kws none l

/-- `reTrueBlankLine = re.compile(r'^ \s* $')` applied with `.match`:
the line consists solely of whitespace. This expression is fixed; no
configuration option replaces it. -/
def reTrueBlankLine (l : List Char) : Bool :=
  l.all (fun c => isPySpace c)

/-- Character class of the default blank-line ("faux blank") detector:
space, whitespace, backslash, plus, dot, comma, semicolon, equals,
dash, slash, star, single quote, backquote, double quote, hash, bang,
percent, braces, parens, brackets, angle brackets, pipe (whitespace
inside a character class is significant under re.VERBOSE, so the
literal spaces put the space character in the class). -/
def isBlankSymbol (c : Char) : Bool :=
  isPySpace c || c = '\\' || c = '+' || c = '.' || c = ',' || c = ';' ||
  c = '=' || c = '-' || c = '/' || c = '*' || c = squote || c = backquote ||
  c = '"' || c = '#' || c = '!' || c = '%' || c = lbrace || c = rbrace ||
  c = '(' || c = ')' || c = '[' || c = ']' || c = '<' || c = '>' || c = '|'

/-- Default `reBlankLine` applied with `.match`: every character lies in
the blank-symbol class. -/
def reBlankLineDefault (l : List Char) : Bool :=
  l.all (fun c => isBlankSymbol c)

/-- Parse one `<[\w/\\]*>` group of the XML blank-line detector,
returning the rest of the line after `>`. -/
def xmlTagBody : List Char → Option (List Char)
  | '<' :: rest =>
      match rest.dropWhile (fun c => isWordChar c || c = '/' || c = '\\') with
      | '>' :: r => some r
      | _ => none
  | _ => none

/-- Parse `(<[\w/\\]*>)+ \s* $` (fuel-based recursion; each group
consumes at least two characters). -/
def xmlGroupsAux : Nat → List Char → Bool
  | 0, _ => false
  | fuel + 1, l =>
      match xmlTagBody l with
      | some rest => rest.all (fun c => isPySpace c) || xmlGroupsAux fuel rest
      | none => false

/-- Fixed `reBlankXmlLine = re.compile(r'^ \s* (<[\w/\\]*>)+ \s* $')`
applied with `.match` (only consulted when BLANK_LINE_XML is set). -/
def reBlankXmlLine (l : List Char) : Bool :=
  let r := l.dropWhile (fun c => isPySpace c)
  xmlGroupsAux (r.length + 1) r

/-- Default single-line comment detector, applied with `.match`:
`^ \s* ( // | [#](?! \| |def|inc|if|els|end) | ; | --(?! \[ ) | rem | ! )`. -/
def reSingleLineCommentsDefault (l : List Char) : Bool :=
  let r := l.dropWhile (fun c => isPySpace c)
  headIs ['/', '/'] r ||
  (match r with
   | '#' :: rest =>
       !(headIs ['|'] rest || headIsCI (str "def") rest || headIsCI (str "inc") rest ||
         headIsCI (str "if") rest || headIsCI (str "els") rest || headIsCI (str "end") rest)
   | _ => false) ||
  headIs [';'] r ||
  (headIs ['-', '-'] r && !(headIs ['['] (r.drop 2))) ||
  headIsCI (str "rem") r ||
  headIs ['!'] r

/-- Try the alternatives of the default multi-line comment open
detector at one position. The pattern alternatives in order are:
`(^|[^/])/\*`, `--\[\[`, `=(begin|head|item)`, `[#]\|`, a left brace
followed by a dash, `<!--`, `<%--`. On success, return the text after
the matched token (the `remainingLine` capture group). `atStart` is
true when the position is the start of the string (for the `^`
branch). -/
def openTokenHere (atStart : Bool) (s : List Char) : Option (List Char) :=
  if atStart && headIs ['/', '*'] s then some (s.drop 2)
  else if (match s with
           | c :: rest => decide (c ≠ '/') && headIs ['/', '*'] rest
           | [] => false) then some (s.drop 3)
  else if headIs ['-', '-', '[', '['] s then some (s.drop 4)
  else if headIsCI (str "=begin") s then some (s.drop 6)
  else if headIsCI (str "=head") s then some (s.drop 5)
  else if headIsCI (str "=item") s then some (s.drop 5)
  else if headIs ['#', '|'] s then some (s.drop 2)
  else if headIs [lbrace, '-'] s then some (s.drop 2)
  else if headIs ['<', '!', '-', '-'] s then some (s.drop 4)
  else if headIs ['<', '%', '-', '-'] s then some (s.drop 4)
  else none

/-- Leftmost scan of `openTokenHere` over the line (regex `.search`). -/
def multiOpenAux (atStart : Bool) (s : List Char) : Option (List Char) :=
  match openTokenHere atStart s with
  | some r => some r
  | none =>
      match s with
      | [] => none
      | _ :: rest => multiOpenAux false rest

/-- `reMultiLineCommentsOpen.search(line)` with the default pattern:
returns the `remainingLine` group of the leftmost match. -/
def reMultiOpenSearchDefault (l : List Char) : Option (List Char) :=
  multiOpenAux true l

/-- `reMultiLineCommentsOpen.match(line)` with the default pattern:
an anchored match at position 0 only. -/
def reMultiOpenMatchDefault (l : List Char) : Bool :=
  (openTokenHere true l).isSome

/-- Try the alternatives of the default multi-line comment close
detector at one position: `\*/`, `\]\]`, `=(cut|end)`, `\|[#]`, a dash
followed by a right brace, `-->`, `--%>`; returns the text after the
token (the `remainingLine` capture group of the close pattern). -/
def closeTokenHere (s : List Char) : Option (List Char) :=
  if headIs ['*', '/'] s then some (s.drop 2)
  else if headIs [']', ']'] s then some (s.drop 2)
  else if headIsCI (str "=cut") s then some (s.drop 4)
  else if headIsCI (str "=end") s then some (s.drop 4)
  else if headIs ['|', '#'] s then some (s.drop 2)
  else if headIs ['-', rbrace] s then some (s.drop 2)
  else if headIs ['-', '-', '>'] s then some (s.drop 3)
  else if headIs ['-', '-', '%', '>'] s then some (s.drop 4)
  else none

/-- Leftmost scan of `closeTokenHere` (regex `.search`). -/
def multiCloseAux : List Char → Option (List Char)
  | [] => closeTokenHere []
  | c :: cs =>
      match closeTokenHere (c :: cs) with
      | some r => some r
      | none => multiCloseAux cs

/-- `reMultiLineCommentsClose.search(text)` with the default pattern:
returns the `remainingLine` group of the leftmost match. -/
def reMultiCloseSearchDefault (l : List Char) : Option (List Char) :=
  multiCloseAux l

/-- Find the closing quote for the default string-literal pattern
`["] .+? ["]` (resp. single quotes): the body is non-greedy with at
least one character, none of which may be a newline; returns the index
of the closing quote within `rest` (which is at least 1). -/
def strLitCloseAux (q : Char) (j : Nat) : List Char → Option Nat
  | [] => none
  | c :: cs => if c = q then some j else if c = '\n' then none else strLitCloseAux q (j + 1) cs

/-- Closing-quote search given the text after an opening quote. -/
def strLitClose (q : Char) (rest : List Char) : Option Nat :=
  match rest with
  | [] => none
  | c :: cs => if c = '\n' then none else strLitCloseAux q 1 cs

/-- `reStringLiteral.sub('', line)` with the default pattern
`(["] .+? ["]) | (['] .+? ['])`: repeatedly delete the leftmost
shortest quoted span (double-quote alternative first). Fuel-based;
every step consumes at least one character. -/
def stripStringsAux : Nat → List Char → List Char
  | 0, s => s
  | _, [] => []
  | fuel + 1, c :: cs =>
      if c = '"' then
        match strLitClose '"' cs with
        | some j => stripStringsAux fuel (cs.drop (j + 1))
        | none => c :: stripStringsAux fuel cs
      else if c = squote then
        match strLitClose squote cs with
        | some j => stripStringsAux fuel (cs.drop (j + 1))
        | none => c :: stripStringsAux fuel cs
      else c :: stripStringsAux fuel cs

/-- Default string-literal removal (`reStringLiteral.sub('', line)`). -/
def reStringLiteralSubDefault (l : List Char) : List Char :=
  stripStringsAux (l.length + 1) l

/-- First dead-code alternative `[;{}_\[\]\(]+\s*$`: the last
non-whitespace character of the line is one of semicolon, braces,
underscore, square brackets, open paren. -/
def deadCodeEnd (l : List Char) : Bool :=
  match (pyRStrip l).getLast? with
  | some c => c = ';' || c = lbrace || c = rbrace || c = '_' || c = '[' || c = ']' || c = '('
  | none => false

/-- Second dead-code alternative `[A-Za-z]\.[A-Za-z]`: a dotted
identifier fragment. -/
def deadCodeDotted : List Char → Bool
  | a :: d :: b :: rest => (a.isAlpha && d = '.' && b.isAlpha) || deadCodeDotted (d :: b :: rest)
  | _ => false

/-- Fourth dead-code alternative `[=]+ (?![^>])`: an equals-sign run
whose maximal extent ends at end-of-string or just before a greater-than
sign (a shorter run always backtracks into another equals sign, which
the negative lookahead rejects). -/
def eqRunOk (cs : List Char) : Bool :=
  match cs.dropWhile (fun x => x = '=') with
  | [] => true
  | d :: _ => d = '>'

/-- Scan for the equals-run alternative at every position. -/
def deadCodeEqAux : List Char → Bool
  | [] => false
  | c :: cs => (c = '=' && eqRunOk cs) || deadCodeEqAux cs

/-- Default commented-out dead-code detector (`reDeadCode.search`):
`[;{}_\[\]\(]+\s*$ | [A-Za-z]\.[A-Za-z] | [&\+\[\]\|]+ | [=]+ (?![^>])`. -/
def reDeadCodeDefault (l : List Char) : Bool :=
  deadCodeEnd l || deadCodeDotted l ||
  l.any (fun c => c = '&' || c = '+' || c = '[' || c = ']' || c = '|') ||
  deadCodeEqAux l

/-- Default decision keyword detector (`reDecision.search`). -/
def reDecisionDefault (l : List Char) : Bool :=
  kwSearch [str "if", str "elseif", str "elif", str "else", str "unless",
            str "for", str "foreach", str "while", str "until",
            str "when", str "from", str "where", str "join", str "find"] l

/-- Default case-statement detector (`reCases.search`). -/
def reCasesDefault (l : List Char) : Bool :=
  kwSearch [str "case"] l

/-- Default escape/branching keyword detector (`reEscapes.search`). -/
def reEscapesDefault (l : List Char) : Bool :=
  kwSearch [str "return", str "continue", str "break", str "goto",
            str "except", str "catch", str "finally"] l

/-- Default import detector `\b (using | import | [#]* include) \b`
(`reImports.search`). A match through the hash-run branch implies a
match of plain `include` at the first letter, so the keyword scan over
the three words is equivalent as a Boolean search. -/
def reImportsDefault (l : List Char) : Bool :=
  kwSearch [str "using", str "import", str "include"] l

/-- Default class detector (`reClass.search`). -/
def reClassDefault (l : List Char) : Bool :=
  kwSearch [str "class", str "type", str "interface"] l

/-- Default preprocessor detector `^ \s* [#]( def | if | else | end )`
(anchored by the leading caret even under `.search`). -/
def rePreprocessorDefault (l : List Char) : Bool :=
  match l.dropWhile (fun c => isPySpace c) with
  | '#' :: rest =>
      headIsCI (str "def") rest || headIsCI (str "if") rest ||
      headIsCI (str "else") rest || headIsCI (str "end") rest
  | _ => false

/-- Default boolean-operator detector
`( \s+ and \s+ | \s+ or \s+ | \|\| | \&\& )` (`reBooleans.search`). -/
def reBooleansHere (s : List Char) : Bool :=
  (match s with
   | c :: rest =>
       isPySpace c &&
       (let r := rest.dropWhile (fun x => isPySpace x)
        (headIsCI (str "and") r &&
           (match r.drop 3 with
            | d :: _ => isPySpace d
            | [] => false)) ||
        (headIsCI (str "or") r &&
           (match r.drop 2 with
            | d :: _ => isPySpace d
            | [] => false)))
   | [] => false) ||
  headIs ['|', '|'] s || headIs ['&', '&'] s

/-- Scan of `reBooleansHere` over every position. -/
def reBooleansDefault : List Char → Bool
  | [] => false
  | c :: cs => reBooleansHere (c :: cs) || reBooleansDefault cs

/-- Result of a regex match, carrying what the two helpers of
`framework/utils.py` extract from a Python match object:
`get_match_string` (the first non-empty capture group, stripped; empty
when the pattern has no groups) and `get_match_pattern` (the pattern
source text). -/
structure MatchRes where
  groupStr : List Char
  pattern : List Char
deriving DecidableEq

/-- Character class of the tail of the default routine detector,
`[\( \[ { ]+`: open paren, open bracket, open brace AND the space
character (whitespace inside a character class survives re.VERBOSE). -/
def isRoutineOpen (c : Char) : Bool :=
  c = '(' || c = '[' || c = lbrace || c = ' '

/-- Tail `\s* [\( \[ { ]+` of the default routine detector after the
keyword: some run of whitespace followed by a class character; since
the space character is itself in the class, this holds iff the leading
whitespace contains a space or the first non-whitespace character is in
the class. -/
def routineTail (rest : List Char) : Bool :=
  (rest.takeWhile (fun c => isPySpace c)).any (fun c => c = ' ') ||
  (match rest.dropWhile (fun c => isPySpace c) with
   | c :: _ => isRoutineOpen c
   | [] => false)

/-- Keywords of the default routine detector, in pattern order. -/
def routineKws : List (List Char) :=
  [str "def", str "public", str "private", str "protected", str "static",
   str "void", str "sub", str "func", str "function", str "prop",
   str "property", str "proc", str "procedure"]

/-- Abbreviated pattern-source text reported for the default routine
detector (`utils.get_match_pattern`; the full multi-line pattern source
is abbreviated to a stable identifier, it is only ever copied verbatim
into output rows). -/
def reDefaultRoutinePatternStr : List Char :=
  str "reDefaultRoutine"

/-- Try each keyword alternative of the default routine detector at one
position, first completion wins (regex alternation with backtracking). -/
def routineKwHere (prev : Option Char) (s : List Char) : Option MatchRes :=
  if prevNonWord prev then
    match routineKws.find? (fun kw => headIsCI kw s && routineTail (s.drop kw.length)) with
    | some kw => some ⟨s.take kw.length, reDefaultRoutinePatternStr⟩
    | none => none
  else none

/-- Position scan for the default routine detector. -/
def reDefaultRoutineAux (prev : Option Char) : List Char → Option MatchRes
  | [] => none
  | c :: cs =>
      match routineKwHere prev (c :: cs) with
      | some m => some m
      | none => reDefaultRoutineAux (some c) cs

/-- `reDefaultRoutine.search(line)` with the default pattern
`\b (def|public|...|procedure) \s* [\( \[ { ]+`; the capture group is
the keyword. -/
def reDefaultRoutineSearchDefault (l : List Char) : Option MatchRes :=
  reDefaultRoutineAux none l

/-- Boolean form of the default routine detector. -/
def reDefaultRoutineDefault (l : List Char) : Bool :=
  (reDefaultRoutineSearchDefault l).isSome

/-! Machine-generated block detectors (`Code.blockDetectors[MACHINE]`). -/

/-- Scan for a keyword of `kws` whose preceding character is a non-word
character and (when `needAfter` is true) whose following character is a
non-word character or the end. -/
def scanKwBounded (kws : List (List Char)) (needAfter : Bool) (prev : Option Char) : List Char → Bool
  | [] => false
  | c :: cs =>
      kws.any (fun kw =>
        prevNonWord prev && headIsCI kw (c :: cs) &&
        (!needAfter || bdryAfter ((c :: cs).drop kw.length))) ||
      scanKwBounded kws needAfter (some c) cs

/-- Scan like `scanKwBounded`, but the characters passed over must not
be a dot (regex `[^\.]*?` between two tokens). -/
def scanKwBoundedNoDot (kws : List (List Char)) (needAfter : Bool) (prev : Option Char) : List Char → Bool
  | [] => false
  | c :: cs =>
      kws.any (fun kw =>
        prevNonWord prev && headIsCI kw (c :: cs) &&
        (!needAfter || bdryAfter ((c :: cs).drop kw.length))) ||
      (decide (c ≠ '.') && scanKwBoundedNoDot kws needAfter (some c) cs)

/-- Position scan for machine detector 1 start
`region \b .*? \b generated`: an occurrence of `region` followed by a
word boundary, then later `generated` preceded by a word boundary. -/
def machineRegionAux (_prev : Option Char) : List Char → Bool
  | [] => false
  | c :: cs =>
      (headIsCI (str "region") (c :: cs) && bdryAfter ((c :: cs).drop 6) &&
        scanKwBounded [str "generated"] false (some 'n') ((c :: cs).drop 6)) ||
      machineRegionAux (some c) cs

/-- Machine detector 1 start: `region \b .*? \b generated`. -/
def machineRegionGenerated (l : List Char) : Bool :=
  machineRegionAux none l

/-- Machine detector 1 end: `end \s* region`. -/
def machineEndRegionAux : List Char → Bool
  | [] => false
  | c :: cs =>
      (headIsCI (str "end") (c :: cs) &&
        headIsCI (str "region") (((c :: cs).drop 3).dropWhile (fun x => isPySpace x))) ||
      machineEndRegionAux cs

/-- Machine detector 1 end pattern `end \s* region`. -/
def machineEndRegion (l : List Char) : Bool :=
  machineEndRegionAux l

/-- One position of machine detector 2
`\b do \s+ not \s+ ( edit | modify ) \b`. -/
def machineDoNotHere (prev : Option Char) (s : List Char) : Bool :=
  prevNonWord prev && headIsCI (str "do") s &&
  (let r := s.drop 2
   decide ((r.takeWhile (fun x => isPySpace x)) ≠ []) &&
   (let r2 := r.dropWhile (fun x => isPySpace x)
    headIsCI (str "not") r2 &&
    (let r3 := r2.drop 3
     decide ((r3.takeWhile (fun x => isPySpace x)) ≠ []) &&
     (let r4 := r3.dropWhile (fun x => isPySpace x)
      (headIsCI (str "edit") r4 && bdryAfter (r4.drop 4)) ||
      (headIsCI (str "modify") r4 && bdryAfter (r4.drop 6))))))

/-- Position scan for machine detector 2. -/
def machineDoNotAux (prev : Option Char) : List Char → Bool
  | [] => false
  | c :: cs => machineDoNotHere prev (c :: cs) || machineDoNotAux (some c) cs

/-- Machine detector 2: `\b do \s+ not \s+ ( edit | modify ) \b`
(runs to end of file: its end pattern is None). -/
def machineDoNotEdit (l : List Char) : Bool :=
  machineDoNotAux none l

/-- Second keywords of machine detector 3. -/
def machineGenByKws : List (List Char) :=
  [str "with", str "by", str "from", str "date", str "time", str "auto",
   str "code", str "file", str "class", str "script", str "source"]

/-- Position scan for machine detector 3
`( generated | compiled ) \b [^\.]*? \b (with|by|...|source) .* $`:
`generated`/`compiled` (no boundary before), a boundary after, then a
dot-free stretch up to a second keyword preceded by a word boundary
(no boundary after the second keyword; `.* $` always succeeds on a
newline-free line). -/
def machineGenByAux (_prev : Option Char) : List Char → Bool
  | [] => false
  | c :: cs =>
      ((headIsCI (str "generated") (c :: cs) && bdryAfter ((c :: cs).drop 9) &&
          scanKwBoundedNoDot machineGenByKws false (some 'd') ((c :: cs).drop 9)) ||
       (headIsCI (str "compiled") (c :: cs) && bdryAfter ((c :: cs).drop 8) &&
          scanKwBoundedNoDot machineGenByKws false (some 'd') ((c :: cs).drop 8))) ||
      machineGenByAux (some c) cs

/-- Machine detector 3 (runs to end of file). -/
def machineGeneratedBy (l : List Char) : Bool :=
  machineGenByAux none l

/-- Scan used by the `auto[^\b]*?` branch of machine detector 4: look
for `generated` or `created` preceded by a word boundary and followed
by one, passing over arbitrary non-backspace characters (inside a
character class `\b` denotes the backspace character). The trailing
`[^\.]*? \b` of the pattern may be taken empty, so no dot-freeness is
required on this branch. -/
def machineAutoScan (prev : Option Char) : List Char → Bool
  | [] => false
  | c :: cs =>
      (prevNonWord prev &&
        ((headIsCI (str "generated") (c :: cs) && bdryAfter ((c :: cs).drop 9)) ||
         (headIsCI (str "created") (c :: cs) && bdryAfter ((c :: cs).drop 7)))) ||
      (decide (c ≠ Char.ofNat 8) && machineAutoScan (some c) cs)

/-- First keywords of the non-`auto` branch of machine detector 4. -/
def machineAutoKws : List (List Char) :=
  [str "code", str "file", str "class", str "script", str "source", str "designer"]

/-- One position of machine detector 4
`\b ( auto[^\b]*? | code | file | class | script | source | designer )
\b [^\.]*? \b ( generated | \bcreated ) \b`. -/
def machineAutoHere (prev : Option Char) (s : List Char) : Bool :=
  prevNonWord prev &&
  ((headIsCI (str "auto") s && machineAutoScan (some 'o') (s.drop 4)) ||
   (machineAutoKws.any (fun kw =>
      headIsCI kw s && bdryAfter (s.drop kw.length) &&
      scanKwBoundedNoDot [str "generated", str "created"] true
        (some (kw.getLastD 'x')) (s.drop kw.length))))

/-- Position scan for machine detector 4. -/
def machineAutoAux (prev : Option Char) : List Char → Bool
  | [] => false
  | c :: cs => machineAutoHere prev (c :: cs) || machineAutoAux (some c) cs

/-- Machine detector 4 (runs to end of file). -/
def machineAutoGenerated (l : List Char) : Bool :=
  machineAutoAux none l

/-- One position of machine detector 5
`\b created \b .*? \b ( tool | auto | code | script ) \b .* $`. -/
def machineCreatedHere (prev : Option Char) (s : List Char) : Bool :=
  prevNonWord prev && headIsCI (str "created") s && bdryAfter (s.drop 7) &&
  scanKwBounded [str "tool", str "auto", str "code", str "script"] true
    (some 'd') (s.drop 7)

/-- Position scan for machine detector 5. -/
def machineCreatedAux (prev : Option Char) : List Char → Bool
  | [] => false
  | c :: cs => machineCreatedHere prev (c :: cs) || machineCreatedAux (some c) cs

/-- Machine detector 5 (runs to end of file). -/
def machineCreatedTool (l : List Char) : Bool :=
  machineCreatedAux none l

/-! ### Search mixin (csmodules/searchMixin.py)

Search dictionaries are `{rawParam: [compiledRegEx, hitCount]}` in
Python; the hit counts are mutated only for debug reporting and are not
modelled. Python 3.7+ dictionaries iterate in insertion order with
overwrite-in-place on duplicate keys, so they are association lists
here. -/

/-- A compiled search-rule matcher (a configured regular expression;
`none` models "no match"). -/
abbrev RuleMatcher : Type := List Char → Option MatchRes

/-- A search dictionary: keys in insertion order with their matchers. -/
abbrev SearchDict : Type := List (List Char × RuleMatcher)

/-- `_searchMixin._find_positive_match`: first rule (in stored order)
whose expression matches the target. -/
def findPositiveMatch (searchTarget : List Char) : SearchDict → Option (List Char × MatchRes)
  | [] => none
  | (posString, posRegExp) :: rest =>
      match posRegExp searchTarget with
      | some m => some (posString, m)
      | none => findPositiveMatch searchTarget rest

/-- `_searchMixin._is_negative_match`: does any negative rule match? -/
def isNegativeMatch (searchTarget : List Char) : SearchDict → Bool
  | [] => false
  | (_, negRegExp) :: rest =>
      (negRegExp searchTarget).isSome || isNegativeMatch searchTarget rest

/-- `_searchMixin._first_match`: the first positive match that has no
negative match, with an option on which direction is checked first. -/
def firstMatch (searchTarget : List Char) (positiveSearches negativeSearches : SearchDict)
    (negativeFirst : Bool) : Option (List Char × MatchRes) :=
  if negativeFirst then
    if !(isNegativeMatch searchTarget negativeSearches) then
      findPositiveMatch searchTarget positiveSearches
    else none
  else
    match findPositiveMatch searchTarget positiveSearches with
    | some matchTuple =>
        if isNegativeMatch searchTarget negativeSearches then none else some matchTuple
    | none => none

/-- Insert into a search dictionary with Python dict semantics:
overwrite in place on a duplicate key, else append. -/
def dictInsert (d : SearchDict) (k : List Char) (v : RuleMatcher) : SearchDict :=
  if d.any (fun p => p.1 = k) then
    d.map (fun p => if p.1 = k then (k, v) else p)
  else d ++ [(k, v)]

/-- `_searchMixin._setup_search_strings`: split the processed config
parameters `(positiveSearch, rawParam, regEx)` into the positive and
negative dictionaries. -/
def setupSearchStrings (ps : List (Bool × List Char × RuleMatcher)) : SearchDict × SearchDict :=
  ps.foldl
    (fun pn p =>
      if p.1 then (dictInsert pn.1 p.2.1 p.2.2, pn.2)
      else (pn.1, dictInsert pn.2 p.2.1 p.2.2))
    ([], [])

/-! ### Data model (NBNC / Code module state) -/

/-- The verbs `Code._survey` dispatches on (mutually exclusive per
survey invocation). -/
inductive Verb where
  | measure
  | routines
  | search
  | analyze
  | tempmeasure
deriving DecidableEq

/-- Module configuration after `_cs_init_config_options` and the
config-file options have been applied. Each compiled regular
expression is a function field; booleans and integers mirror the
instance attributes of `NBNC`/`Code`/`_searchMixin`. -/
structure Config where
  writeEmptyMeasures : Bool
  verb : Verb
  params : List (Bool × List Char × RuleMatcher)
  addLineSep : Option Char
  maxLineLength : Nat
  reSkipLine : Option (List Char → Bool)
  skipBinaryLines : Bool
  stripLineBeforeComments : Bool
  reStringLiteralSub : List Char → List Char
  reBlankLine : List Char → Bool
  reBlankLineAdd : Option (List Char → Bool)
  blankXmlLines : Bool
  reSingleLineComments : List Char → Bool
  reMultiOpenSearch : List Char → Option (List Char)
  reMultiOpenMatch : List Char → Bool
  reMultiCloseSearch : List Char → Option (List Char)
  sameLineMultiCloseAsComment : Bool
  blockChangeIgnore : List Char
  blockIgnoreFile : List Char
  measureBlock : Nat
  blockDetectors : List (List ((List Char → Bool) × Option (List Char → Bool)))
  reDecision : List Char → Bool
  complexityInclCases : Bool
  reCases : List Char → Bool
  complexityInclEscapes : Bool
  reEscapes : List Char → Bool
  complexityInclBooleans : Bool
  reBooleans : List Char → Bool
  routineInclFileLines : Bool
  routineSpanBlocks : Bool
  routineSingleLine : Bool
  routineOutputSingle : Bool
  inclDeadCode : Bool
  reDeadCode : List Char → Bool
  rePreprocessor : List Char → Bool
  commentsInclInline : Bool
  inlineCommentMatches : List (List Char)
  reImports : List Char → Bool
  reClass : List Char → Bool
  reDefaultRoutineSearch : List Char → Option MatchRes
  routineAvgIndent : Nat
  routineIgnoreCol : Int
  includeComments : Bool
  onlyComments : Bool
  includeStringContent : Bool

/-- `self.measuringRoutines`, set from the verb in `Code._survey`. -/
def Config.measuringRoutines (cfg : Config) : Bool :=
  decide (cfg.verb = Verb.routines)

/-- `self.searching`, set from the verb in `Code._survey`. -/
def Config.searching (cfg : Config) : Bool :=
  decide (cfg.verb = Verb.search)

/-- `self._matchTemplateLines`, set for the tempmeasure verb. -/
def Config.matchTemplateLines (cfg : Config) : Bool :=
  decide (cfg.verb = Verb.tempmeasure)

/-- The params handed to `_survey_lines`: `Code._survey` passes the
processed config params for the routines/search/tempmeasure verbs and
an empty list for measure/analyze. -/
def Config.effParams (cfg : Config) : List (Bool × List Char × RuleMatcher) :=
  match cfg.verb with
  | Verb.routines => cfg.params
  | Verb.search => cfg.params
  | Verb.tempmeasure => cfg.params
  | _ => []

/-- `Code.HUMAN_CODE` block index. -/
def HUMAN_CODE : Nat := 0

/-- `Code.MACHINE` block index. -/
def MACHINE : Nat := 1

/-- `Code.CONTENT` block index. -/
def CONTENT : Nat := 2

/-- The `self.currentRoutine` dictionary of `Code`. -/
structure RoutineRec where
  name : List Char
  regExConfig : List Char
  regExFull : List Char
  line : List Char
  lineNum : Nat
  lineCol : Nat
  lineIndent : Nat
  decisions : Nat
  booleans : Nat
  cases : Nat
  escapes : Nat
  maxIndent : Int

/-- `Code._reset_routine_counts`. -/
def resetRoutineRec : RoutineRec where
  name := str "SURVEYOR( File lines grouped as routine )"
  regExConfig := []
  regExFull := []
  line := []
  lineNum := 0
  lineCol := 0
  lineIndent := 0
  decisions := 0
  booleans := 0
  cases := 0
  escapes := 0
  maxIndent := 0

/-- The per-block counter arrays created in `NBNC._survey_start` and
`Code._survey_start` (`self.counts`), one entry per block detector. -/
structure Counts where
  rawLines : List Nat
  skippedLines : List Nat
  totalLines : List Nat
  measureLines : List Nat
  commentLines : List Nat
  fauxBlankLines : List Nat
  trueBlankLines : List Nat
  imports : List Nat
  classes : List Nat
  routines : List Nat
  decisions : List Nat
  deadCode : List Nat
  templateLines : List Nat
  asmComments : List Nat
  totalSearchHits : List Nat
  semicolons : List Nat
  preprocessor : List Nat
  nbncCRC : List Nat

/-- A value of an output measurement / analysis-row entry. -/
inductive RowVal where
  | int (i : Int)
  | txt (s : List Char)
deriving DecidableEq

/-- One analysis row (a Python dict of dotted measure names to values,
in insertion order). -/
abbrev Row : Type := List (List Char × RowVal)

/-- Full mutable state of one file survey. The fields up to `analysis`
mirror instance/local variables of the source; the remaining fields are
instrumentation: `assertNbncFailed`/`assertCommentsFailed` record
whether an `assert` in `Code._save_routine_info` would fire,
`savedNbncs` records every routine NBNC length computed there for the
measured block, and `blockChanges` counts `_block_change_event` calls. -/
structure SurveyState where
  activeBlock : Nat
  activeBlockEndRe : Option (List Char → Bool)
  activeBlockIsSingleLine : Bool
  useBlockDetection : Bool
  scanningMultiLine : Bool
  counts : Counts
  totalNbncAtLastRoutine : List Nat
  totalCommentsAtLastRoutine : List Nat
  fileCrc : Nat
  currentRoutine : RoutineRec
  foundFirstRoutineSinceTransition : Bool
  routinePrevLineStart : Bool
  analysis : List Row
  assertNbncFailed : Bool
  assertCommentsFailed : Bool
  savedNbncs : List Int
  blockChanges : Nat

/-- `NBNC._survey_start` / `Code._survey_start`: fresh per-file state
(the positive/negative search dictionaries are derived separately via
`setupSearchStrings`). -/
def surveyStart (cfg : Config) : SurveyState :=
  let n := cfg.blockDetectors.length
  let z : List Nat := List.replicate n 0
  { activeBlock := 0
    activeBlockEndRe := none
    activeBlockIsSingleLine := false
    useBlockDetection := true
    scanningMultiLine := false
    counts :=
      { rawLines := z, skippedLines := z, totalLines := z, measureLines := z
        commentLines := z, fauxBlankLines := z, trueBlankLines := z
        imports := z, classes := z, routines := z, decisions := z
        deadCode := z, templateLines := z, asmComments := z
        totalSearchHits := z, semicolons := z, preprocessor := z, nbncCRC := z }
    totalNbncAtLastRoutine := z
    totalCommentsAtLastRoutine := z
    fileCrc := 0
    currentRoutine := resetRoutineRec
    foundFirstRoutineSinceTransition := false
    routinePrevLineStart := false
    analysis := []
    assertNbncFailed := false
    assertCommentsFailed := false
    savedNbncs := []
    blockChanges := 0 }

/-! ### Supporting utilities from framework/utils.py -/

/-- `utils.MAX_RANK = sys.maxsize`. -/
def MAX_RANK : Int := 2 ^ 63 - 1

/-- `_searchMixin.MAX_STR_LEN`. -/
def MAX_STR_LEN : Nat := 255

/-- `utils.match_ranking_label` for integer values: the first threshold
the value does not exceed wins, otherwise the empty label (the float
conversions in the source are exact on integers of this size). -/
def matchRankingLabel (rankingMap : List (Int × List Char)) (value : Int) : List Char :=
  match rankingMap.find? (fun tr => decide (value ≤ tr.1)) with
  | some tr => tr.2
  | none => []

/-- `utils.match_ranking_label` applied to a comment-density ratio
`nbnc / float(comments)`: for positive `den`, `num/den ≤ t` is
`num ≤ t*den` (the float quotient of counters this small cannot round
across an integer threshold); with zero comments the source passes the
literal `0.0`. -/
def matchRankingLabelRatio (rankingMap : List (Int × List Char)) (num den : Int) : List Char :=
  if den = 0 then matchRankingLabel rankingMap 0
  else
    match rankingMap.find? (fun tr => decide (num ≤ tr.1 * den)) with
    | some tr => tr.2
    | none => []

/-- Decimal text of an integer (Python `str(i)`). -/
def intToTxt (i : Int) : List Char :=
  str (toString i)

/-- Decimal text of a natural number (Python `str(n)`). -/
def natToTxt (n : Nat) : List Char :=
  str (toString n)

/-- `Code.CommentDensityRanks`. -/
def CommentDensityRanks : List (Int × List Char) :=
  [(0, str "0%"), (4, str "> 25%"), (10, str "> 10%"), (20, str "> 5%"),
   (MAX_RANK, str "< 5%")]

/-- `Code.RoutineSizeRanks`. -/
def RoutineSizeRanks : List (Int × List Char) :=
  [(50, str "1 to 50"), (100, str "51 to 100"), (200, str "101 to 200"),
   (MAX_RANK, str "200+")]

/-- `Code.RoutineComplexityRanks`. -/
def RoutineComplexityRanks : List (Int × List Char) :=
  [(6, str "1 to 6"), (14, str "7 to 14"), (30, str "15 to 30"),
   (MAX_RANK, str "31+")]

/-- `Code.MaxNestingRanks`. -/
def MaxNestingRanks : List (Int × List Char) :=
  [(2, str "0 to 2"), (5, str "3 to 4"), (MAX_RANK, str "5+")]

/-- Measure-name constants of `Code` used in routine analysis rows. -/
def ROUTINE_NAME : List Char := str "routine.name"

/-- Measure name `routine.line`. -/
def ROUTINE_LINE : List Char := str "routine.line"

/-- Measure name `routine.lineNum`. -/
def ROUTINE_LINENUM : List Char := str "routine.lineNum"

/-- Measure name `routine.lineCol`. -/
def ROUTINE_LINECOL : List Char := str "routine.lineCol"

/-- Measure name `routine.lineNesting`. -/
def ROUTINE_LINEINDENT : List Char := str "routine.lineNesting"

/-- Measure name `routine.regex`. -/
def ROUTINE_CONFIG_RE : List Char := str "routine.regex"

/-- Measure name `routine.regex-full`. -/
def ROUTINE_REGEX : List Char := str "routine.regex-full"

/-- Measure name `routine.nbnc`. -/
def ROUTINE_NBNC : List Char := str "routine.nbnc"

/-- Measure name `routine.nbncRank`. -/
def ROUTINE_NBNC_RANK : List Char := str "routine.nbncRank"

/-- Measure name `routine.comments`. -/
def ROUTINE_COMMENTS : List Char := str "routine.comments"

/-- Measure name `routine.commentsRank`. -/
def ROUTINE_COMMENTS_RANK : List Char := str "routine.commentsRank"

/-- Measure name `routine.complexity`. -/
def ROUTINE_COMPLEXITY : List Char := str "routine.complexity"

/-- Measure name `routine.complexityRank`. -/
def ROUTINE_COMPLEXITY_RANK : List Char := str "routine.complexityRank"

/-- Measure name `routine.maxNesting`. -/
def ROUTINE_MAXINDENT : List Char := str "routine.maxNesting"

/-- Measure name `routine.maxNestingRank`. -/
def ROUTINE_MAXINDENT_RANK : List Char := str "routine.maxNestingRank"

/-- Measure name `routine.c-decisions`. -/
def ROUTINE_DECISIONS : List Char := str "routine.c-decisions"

/-- Measure name `routine.c-cases`. -/
def ROUTINE_CASES : List Char := str "routine.c-cases"

/-- Measure name `routine.c-booleans`. -/
def ROUTINE_BOOLEANS : List Char := str "routine.c-booleans"

/-- Measure name `routine.c-escapes`. -/
def ROUTINE_BRANCHINGS : List Char := str "routine.c-escapes"

/-- Measure name `search.match`. -/
def SEARCH_MATCH : List Char := str "search.match"

/-- Measure name `search.line`. -/
def SEARCH_LINE : List Char := str "search.line"

/-- Measure name `search.linenum`. -/
def SEARCH_LINENUM : List Char := str "search.linenum"

/-- Measure name `search.regex`. -/
def SEARCH_CONFIG_RE : List Char := str "search.regex"

/-- Measure name `search.regex-full`. -/
def SEARCH_REGEXP : List Char := str "search.regex-full"

/-! ### Per-line processing (NBNC._survey_lines pipeline and the Code
specializations) -/

/-- `NBNC._preprocess_line`: truncate to the maximum length, then
remove null characters and newlines (`utils.strip_null_chars`). -/
def preprocessLine (cfg : Config) (line : List Char) : List Char :=
  ((line.take cfg.maxLineLength).filter (fun c => decide (c ≠ Char.ofNat 0))).filter
    (fun c => decide (c ≠ '\n'))

/-- `NBNC._strip_blanks_and_strings`: delete string-literal bodies via
the configured expression, then strip surrounding whitespace. -/
def stripBlanksAndStrings (cfg : Config) (line : List Char) : List Char :=
  pyStrip (cfg.reStringLiteralSub line)

/-- Text characters of `utils.is_str_binary`: ASCII letters, digits,
whitespace and a set of common punctuation. -/
def binTextChar (c : Char) : Bool :=
  c.isAlphanum || isPySpace c || c = '~' || c = '$' || c = '\\' || c = '/' ||
  c = '-' || c = '_' || c = '<' || c = '>' || c = '=' || c = '(' || c = ')' ||
  c = ':' || c = '*' || c = '|' || c = ';' || c = ',' || c = '"'

/-- `utils.check_bytes_below_threshold` specialised to `startPos = 1`
and threshold `0.2`: the float comparison `badChars/bytePos > 0.2` is
`5*badChars > bytePos` exactly, for the window sizes used (at most 80
bytes the float quotient cannot cross the threshold by rounding). -/
def checkBytesAux (minWin len2 : Nat) : Nat → Nat → List Char → Bool
  | _, _, [] => true
  | bytePos0, badChars0, c :: cs =>
      let bytePos := bytePos0 + 1
      let badChars := if binTextChar c then badChars0 else badChars0 + 1
      if bytePos ≥ minWin || bytePos = len2 then
        if 5 * badChars > bytePos then false
        else checkBytesAux minWin len2 bytePos badChars cs
      else checkBytesAux minWin len2 bytePos badChars cs

/-- `utils.is_str_binary`: examine the first 80 bytes after leading
whitespace with a minimum window of 15. -/
def isStrBinary (rawLine : List Char) : Bool :=
  let s := (pyLStrip rawLine).take 80
  !(checkBytesAux 15 s.length 0 0 s)

/-- The skip decision of `NBNC._alternate_line_processing`: a SKIP_LINES
expression takes precedence; otherwise the binary-line heuristic when
SKIP_BINARY_LINES is set; otherwise the line is processed normally. -/
def alternateSkip (cfg : Config) (rawLine : List Char) : Bool :=
  match cfg.reSkipLine with
  | some re => re rawLine
  | none => cfg.skipBinaryLines && isStrBinary rawLine

/-- `NBNC._detect_blank_line` predicate (the counter increment is done
at the call site in this model). -/
def detectBlankLineHit (cfg : Config) (line : List Char) : Bool :=
  cfg.reBlankLine line ||
  (cfg.blankXmlLines && reBlankXmlLine line) ||
  (match cfg.reBlankLineAdd with
   | some re => re line
   | none => false)

/-- `NBNC._detect_line_comment`: returns the pair
`(onCommentLine, scanningMultiLine)`. -/
def detectLineComment (cfg : Config) (scanningMultiLine : Bool) (line : List Char) :
    Bool × Bool :=
  let stripLine := if cfg.stripLineBeforeComments then stripBlanksAndStrings cfg line else line
  if !scanningMultiLine && cfg.reSingleLineComments stripLine then
    (true, scanningMultiLine)
  else if scanningMultiLine then
    match cfg.reMultiCloseSearch stripLine with
    | some _ => (true, false)
    | none => (true, true)
  else
    match cfg.reMultiOpenSearch stripLine with
    | some remaining =>
        match cfg.reMultiCloseSearch remaining with
        | some remainingLine =>
            if !cfg.sameLineMultiCloseAsComment then
              if !(cfg.reMultiOpenMatch stripLine) || decide (pyStrip remainingLine ≠ []) then
                (false, false)
              else (true, false)
            else (true, false)
        | none => (true, true)
    | none => (false, scanningMultiLine)

/-- `Code._save_routine_info`: finalize the current routine record.
The two Python `assert` statements are instrumented into the
`assertNbncFailed`/`assertCommentsFailed` fields, and every computed
routine NBNC length is recorded in `savedNbncs`. -/
def saveRoutineInfo (cfg : Config) (s0 : SurveyState) (activeBlock : Nat) : SurveyState :=
  if !cfg.measuringRoutines then s0
  else if decide (activeBlock ≠ cfg.measureBlock) && !cfg.routineSpanBlocks then s0
  else
    let computeMetrics := s0.foundFirstRoutineSinceTransition || cfg.routineInclFileLines
    let routineNbnc : Int :=
      (s0.counts.measureLines.getD activeBlock 0 : Int) -
        (s0.totalNbncAtLastRoutine.getD activeBlock 0 : Int)
    let s1 := { s0 with
      assertNbncFailed := s0.assertNbncFailed || decide (routineNbnc < 0)
      savedNbncs := s0.savedNbncs ++ [routineNbnc] }
    if !(decide (routineNbnc > 1) || cfg.routineOutputSingle || cfg.writeEmptyMeasures) then s1
    else
      let s2 :=
        if computeMetrics then
          { s1 with totalNbncAtLastRoutine :=
              (setAt s1.totalNbncAtLastRoutine activeBlock
                (s1.counts.measureLines.getD activeBlock 0)) }
        else s1
      let branchings : Int := max 1 (s2.currentRoutine.escapes : Int)
      let m1 : Row :=
        if computeMetrics then
          [(ROUTINE_BRANCHINGS, RowVal.int branchings),
           (ROUTINE_DECISIONS, RowVal.int (s2.currentRoutine.decisions : Int)),
           (ROUTINE_CASES, RowVal.int (s2.currentRoutine.cases : Int)),
           (ROUTINE_BOOLEANS, RowVal.int (s2.currentRoutine.booleans : Int))]
        else []
      let routineComplexity : Int :=
        if computeMetrics then
          (s2.currentRoutine.decisions : Int) +
          (if cfg.complexityInclEscapes then branchings else 0) +
          (if cfg.complexityInclCases then (s2.currentRoutine.cases : Int) else 0) +
          (if cfg.complexityInclBooleans then (s2.currentRoutine.booleans : Int) else 0)
        else 0
      let s3 :=
        if (computeMetrics || cfg.writeEmptyMeasures) && !computeMetrics then
          { s2 with currentRoutine :=
              { s2.currentRoutine with name := str "SURVEYOR(NO MEASURE)" } }
        else s2
      let routineNbncOut : Int := if computeMetrics then routineNbnc else 0
      let m2 : Row :=
        if computeMetrics || cfg.writeEmptyMeasures then
          [(ROUTINE_NBNC, RowVal.int routineNbncOut),
           (ROUTINE_NBNC_RANK, RowVal.txt (matchRankingLabel RoutineSizeRanks routineNbncOut)),
           (ROUTINE_MAXINDENT, RowVal.txt (intToTxt s3.currentRoutine.maxIndent)),
           (ROUTINE_MAXINDENT_RANK,
             RowVal.txt (matchRankingLabel MaxNestingRanks s3.currentRoutine.maxIndent)),
           (ROUTINE_COMPLEXITY, RowVal.int routineComplexity),
           (ROUTINE_COMPLEXITY_RANK,
             RowVal.txt (matchRankingLabel RoutineComplexityRanks routineComplexity)),
           (ROUTINE_NAME, RowVal.txt (pyStrip s3.currentRoutine.name)),
           (ROUTINE_LINE, RowVal.txt (pyStrip s3.currentRoutine.line)),
           (ROUTINE_LINENUM, RowVal.txt (natToTxt s3.currentRoutine.lineNum)),
           (ROUTINE_LINECOL, RowVal.txt (natToTxt s3.currentRoutine.lineCol)),
           (ROUTINE_LINEINDENT, RowVal.txt (natToTxt s3.currentRoutine.lineIndent)),
           (ROUTINE_REGEX, RowVal.txt (s3.currentRoutine.regExFull.take MAX_STR_LEN)),
           (ROUTINE_CONFIG_RE, RowVal.txt (s3.currentRoutine.regExConfig.take MAX_STR_LEN))]
        else []
      let routineComments : Int :=
        (s3.counts.commentLines.getD activeBlock 0 : Int) -
          (s3.totalCommentsAtLastRoutine.getD activeBlock 0 : Int)
      let s4 :=
        if computeMetrics then
          { s3 with
            assertCommentsFailed := s3.assertCommentsFailed || decide (routineComments < 0)
            totalCommentsAtLastRoutine :=
              setAt s3.totalCommentsAtLastRoutine activeBlock
                (s3.counts.commentLines.getD activeBlock 0) }
        else s3
      let m3 : Row :=
        if computeMetrics then
          [(ROUTINE_COMMENTS, RowVal.int routineComments),
           (ROUTINE_COMMENTS_RANK,
             RowVal.txt (matchRankingLabelRatio CommentDensityRanks routineNbnc routineComments))]
        else []
      let measurements := m1 ++ m2 ++ m3
      if decide (measurements ≠ []) then { s4 with analysis := s4.analysis ++ [measurements] }
      else s4

/-- `Code._block_change_event` (which overrides the logging stub of
NBNC): when measuring routines with block spanning disabled, the
in-flight routine is finalized against the old block and reset. Every
event also bumps the `blockChanges` instrumentation counter. -/
def blockChangeEvent (cfg : Config) (s : SurveyState) (oldActiveBlock : Nat) : SurveyState :=
  let s := { s with blockChanges := s.blockChanges + 1 }
  if cfg.measuringRoutines && !cfg.routineSpanBlocks then
    let s := saveRoutineInfo cfg s oldActiveBlock
    { s with foundFirstRoutineSinceTransition := false, currentRoutine := resetRoutineRec }
  else s

/-- The scan over non-default block detectors of
`NBNC._detect_block_change` (first matching start expression wins),
returning the block number and its end expression. -/
def findBlockStartAux (line : List Char) :
    Nat → List (List ((List Char → Bool) × Option (List Char → Bool))) →
      Option (Nat × Option (List Char → Bool))
  | _, [] => none
  | blockNum, blockDetector :: rest =>
      match blockDetector.find? (fun detector => detector.1 line) with
      | some detector => some (blockNum, detector.2)
      | none => findBlockStartAux line (blockNum + 1) rest

/-- Scan all block detectors from index 1. -/
def findBlockStart (cfg : Config) (line : List Char) :
    Option (Nat × Option (List Char → Bool)) :=
  findBlockStartAux line 1 (cfg.blockDetectors.drop 1)

/-- The in-block-0 branch of `NBNC._detect_block_change`: enter the
first matching block; if its end expression also matches the same line
the block is flagged single-line. -/
def blockZeroScan (cfg : Config) (s : SurveyState) (line : List Char) : SurveyState :=
  match findBlockStart cfg line with
  | some bn =>
      let s := { s with activeBlock := bn.1, activeBlockEndRe := bn.2 }
      let single :=
        match bn.2 with
        | some endRe => endRe line
        | none => false
      if single then { s with activeBlockIsSingleLine := true } else s
  | none => s

/-- `NBNC._detect_block_change`: returns the new state and whether the
block changed (the source fires `_block_change_event` inside). The
single-line-block branch resets to block 0 and re-runs once; the early
guards of that recursive call re-evaluate identically on the same
line, so it reduces to the block-0 scan with old block 0. -/
def detectBlockChange (cfg : Config) (s : SurveyState) (line : List Char) :
    SurveyState × Bool :=
  if !s.useBlockDetection then (s, false)
  else if decide (cfg.blockIgnoreFile ≠ []) && containsSub cfg.blockIgnoreFile line then
    ({ s with useBlockDetection := false }, false)
  else if decide (cfg.blockChangeIgnore ≠ []) && containsSub cfg.blockChangeIgnore line then
    (s, false)
  else if s.activeBlock > 0 then
    if s.activeBlockIsSingleLine then
      let s1 := { s with activeBlockIsSingleLine := false, activeBlock := 0,
                         activeBlockEndRe := none }
      let s2 := blockZeroScan cfg s1 line
      if decide (s2.activeBlock ≠ 0) then (blockChangeEvent cfg s2 0, true) else (s2, false)
    else
      match s.activeBlockEndRe with
      | some endRe =>
          if endRe line then
            let s1 := { s with activeBlock := 0, activeBlockEndRe := none }
            (blockChangeEvent cfg s1 s.activeBlock, true)
          else (s, false)
      | none => (s, false)
  else
    let s2 := blockZeroScan cfg s line
    if decide (s2.activeBlock ≠ s.activeBlock) then
      (blockChangeEvent cfg s2 s.activeBlock, true)
    else (s2, false)

/-- `Code._is_template_line`: does the line match the configured search
rules? -/
def isTemplateLine (pos neg : SearchDict) (line : List Char) : Bool :=
  (firstMatch line pos neg false).isSome

/-- `Code._has_inline_comment`: does any inline-comment marker occur in
the stripped line (markers are matched as literal substrings)? -/
def hasInlineComment (cfg : Config) (strippedLine : List Char) : Bool :=
  cfg.inlineCommentMatches.any (fun commentStart => containsSub commentStart strippedLine)

/-- `Code._strip_inlines`: chop the line before every potential inline
comment marker, unless the (current) line starts with a hash. -/
def stripInlines (cfg : Config) (strippedLine : List Char) : List Char :=
  cfg.inlineCommentMatches.foldl
    (fun line commentStart =>
      match line with
      | [] => line
      | c :: _ => if decide (c ≠ '#') then splitOnceBefore commentStart line else line)
    strippedLine

/-- `Code._measure_line_impl`: per-NBNC-line metrics — the rolling
NBNC checksum, semicolons, imports, classes, preprocessor lines, and
(outside the routines verb) per-file routine and decision counts. -/
def measureLineImpl (cfg : Config) (s : SurveyState) (line strippedLine : List Char) :
    SurveyState :=
  let ab := s.activeBlock
  let s := { s with counts := { s.counts with nbncCRC :=
      (setAt s.counts.nbncCRC ab
        (adler32 (utf8Bytes (pyReplaceEmptyWithSpace line)) (s.counts.nbncCRC.getD ab 0))) } }
  let s := { s with counts := { s.counts with semicolons :=
      (bumpAt s.counts.semicolons ab (countChar ';' strippedLine)) } }
  let s :=
    if cfg.reImports strippedLine then
      { s with counts := { s.counts with imports := bumpAt s.counts.imports ab 1 } }
    else s
  let s :=
    if cfg.reClass strippedLine then
      { s with counts := { s.counts with classes := bumpAt s.counts.classes ab 1 } }
    else s
  let s :=
    if cfg.rePreprocessor strippedLine then
      { s with counts := { s.counts with preprocessor := bumpAt s.counts.preprocessor ab 1 } }
    else s
  if !cfg.measuringRoutines then
    let s :=
      if (cfg.reDefaultRoutineSearch strippedLine).isSome then
        { s with counts := { s.counts with routines := bumpAt s.counts.routines ab 1 } }
      else s
    let decisionLine := if cfg.includeStringContent then line else strippedLine
    if cfg.reDecision decisionLine then
      { s with counts := { s.counts with decisions := bumpAt s.counts.decisions ab 1 } }
    else s
  else s

/-- `Code._measure_line`: classify the line's counters. In the
measured block a comment line goes to the template, dead-code or
comment counter; a code line is counted as NBNC (noting inline
comments) and measured in detail. In the machine/content blocks only a
coarse line count is kept. -/
def measureLine (cfg : Config) (pos neg : SearchDict) (s : SurveyState) (line : List Char)
    (onCommentLine : Bool) : SurveyState :=
  if s.activeBlock = cfg.measureBlock then
    if onCommentLine then
      if cfg.matchTemplateLines && isTemplateLine pos neg line then
        { s with counts := { s.counts with templateLines :=
            (bumpAt s.counts.templateLines s.activeBlock 1) } }
      else if cfg.inclDeadCode && cfg.reDeadCode line then
        { s with counts := { s.counts with deadCode :=
            (bumpAt s.counts.deadCode s.activeBlock 1) } }
      else
        { s with counts := { s.counts with commentLines :=
            (bumpAt s.counts.commentLines s.activeBlock 1) } }
    else
      let strippedLine := stripBlanksAndStrings cfg line
      let hasInline := hasInlineComment cfg strippedLine
      let s :=
        if hasInline then
          { s with counts := { s.counts with asmComments :=
              (bumpAt s.counts.asmComments s.activeBlock 1) } }
        else s
      let strippedLine := if hasInline then stripInlines cfg strippedLine else strippedLine
      let s := { s with counts := { s.counts with measureLines :=
          (bumpAt s.counts.measureLines s.activeBlock 1) } }
      measureLineImpl cfg s line strippedLine
  else if s.activeBlock = MACHINE then
    { s with counts := { s.counts with measureLines := bumpAt s.counts.measureLines MACHINE 1 } }
  else if s.activeBlock = CONTENT then
    { s with counts := { s.counts with measureLines := bumpAt s.counts.measureLines CONTENT 1 } }
  else s

/-- `Code._search_line_impl`: strip strings and inline comments as
configured, then record a row for the first qualifying match. -/
def searchLineImpl (cfg : Config) (pos neg : SearchDict) (s : SurveyState) (line : List Char) :
    SurveyState :=
  let searchLine := if !cfg.includeStringContent then stripBlanksAndStrings cfg line else line
  let searchLine := if !cfg.includeComments then stripInlines cfg searchLine else searchLine
  match firstMatch searchLine pos neg false with
  | some km =>
      { s with analysis := s.analysis ++
          [[(SEARCH_LINE, RowVal.txt ((pyStrip line).take MAX_STR_LEN)),
            (SEARCH_LINENUM, RowVal.txt (natToTxt s.counts.rawLines.sum)),
            (SEARCH_MATCH, RowVal.txt ((pyStrip km.2.groupStr).take MAX_STR_LEN)),
            (SEARCH_REGEXP, RowVal.txt ((pyStrip km.2.pattern).take MAX_STR_LEN)),
            (SEARCH_CONFIG_RE, RowVal.txt km.1)]] }
  | none => s

/-- `Code._detect_routine_start`: configured search rules (negative
checked first) when present, otherwise the default routine expression
(returning the pattern text as the key, like `_first_match` does). -/
def detectRoutineStart (cfg : Config) (pos neg : SearchDict) (line : List Char) :
    Option (List Char × MatchRes) :=
  if !pos.isEmpty then firstMatch line pos neg true
  else
    match cfg.reDefaultRoutineSearch line with
    | some m => some (m.pattern, m)
    | none => none

/-- `Code._detect_indent_start`: a new routine starts on a return to a
previous indentation when the depth is non-zero, the ignore-column
setting is non-zero, and the depth is within both the ignore column and
the current routine's start column. -/
def detectIndentStart (cfg : Config) (cur : RoutineRec) (indentDepth : Nat) : Bool :=
  decide (indentDepth ≠ 0) &&
  (decide (cfg.routineIgnoreCol ≠ 0) && decide ((indentDepth : Int) ≤ cfg.routineIgnoreCol)) &&
  decide (indentDepth ≤ cur.lineCol)

/-- `Code._current_routine_ended`: decide whether this line starts a
new routine; consecutive start lines are coalesced into the current
routine unless ROUTINE_SINGLE_LINE is set. -/
def currentRoutineEnded (cfg : Config) (s : SurveyState) (line : List Char)
    (startMatch : Option (List Char × MatchRes)) (indentDepth : Nat) : Bool × SurveyState :=
  let rv := startMatch.isSome || detectIndentStart cfg s.currentRoutine indentDepth
  if rv && !cfg.routineSingleLine && s.routinePrevLineStart then
    (false,
     { s with currentRoutine := { s.currentRoutine with line := s.currentRoutine.line ++ line }
              routinePrevLineStart := false })
  else (rv, { s with routinePrevLineStart := rv })

/-- The routine-start half of `Code._routine_analyze_impl`: when the
current routine ended, save it and start a new record from this line
(recording name and expressions on a regex start). -/
def routineStartStep (cfg : Config) (s : SurveyState) (line : List Char)
    (routineStartMatch : Option (List Char × MatchRes)) (ended : Bool)
    (indentDepth nestingApprox : Nat) : SurveyState :=
  if ended then
    let s := saveRoutineInfo cfg s s.activeBlock
    let s := { s with foundFirstRoutineSinceTransition := true,
                      currentRoutine := resetRoutineRec }
    let s := { s with currentRoutine := { s.currentRoutine with
                 line := line, lineNum := s.counts.rawLines.sum,
                 lineCol := indentDepth, lineIndent := nestingApprox } }
    match routineStartMatch with
    | some km =>
        { s with
          currentRoutine := { s.currentRoutine with
            name := km.2.groupStr, regExConfig := km.1, regExFull := km.2.pattern }
          counts := { s.counts with routines := bumpAt s.counts.routines s.activeBlock 1 } }
    | none => s
  else s

/-- The per-line counter half of `Code._routine_analyze_impl`: the
decision/escape/case/boolean counters of the current routine. -/
def routineCounterStep (cfg : Config) (s : SurveyState) (complexLine : List Char)
    (routineNest : Int) : SurveyState :=
  let s :=
    if cfg.reDecision complexLine then
      let s := { s with
        counts := { s.counts with decisions := bumpAt s.counts.decisions s.activeBlock 1 }
        currentRoutine := { s.currentRoutine with decisions := s.currentRoutine.decisions + 1 } }
      if routineNest > s.currentRoutine.maxIndent then
        { s with currentRoutine := { s.currentRoutine with maxIndent := routineNest } }
      else s
    else s
  let s :=
    if cfg.reEscapes complexLine then
      { s with currentRoutine := { s.currentRoutine with escapes := s.currentRoutine.escapes + 1 } }
    else s
  let s :=
    if cfg.reCases complexLine then
      { s with currentRoutine := { s.currentRoutine with cases := s.currentRoutine.cases + 1 } }
    else s
  if cfg.reBooleans complexLine then
    { s with currentRoutine := { s.currentRoutine with booleans := s.currentRoutine.booleans + 1 } }
  else s

/-- `Code._routine_analyze_impl`: nesting estimate, routine-start
detection with save/reset, and the per-routine decision/escape/case/
boolean counters. -/
def routineAnalyzeImpl (cfg : Config) (pos neg : SearchDict) (s : SurveyState)
    (line : List Char) : SurveyState :=
  let expandedLine := pyExpandTabs cfg.routineAvgIndent line
  let indentDepth := expandedLine.length - (pyLStrip expandedLine).length
  let nestingApprox := indentDepth / cfg.routineAvgIndent
  let routineNest : Int := (nestingApprox : Int) - (s.currentRoutine.lineIndent : Int)
  let strippedLine := stripInlines cfg (stripBlanksAndStrings cfg line)
  let routineStartMatch := detectRoutineStart cfg pos neg line
  let es := currentRoutineEnded cfg s line routineStartMatch indentDepth
  let s := routineStartStep cfg es.2 line routineStartMatch es.1 indentDepth nestingApprox
  let complexLine := if cfg.includeStringContent then line else strippedLine
  routineCounterStep cfg s complexLine routineNest

/-- `Code._analyze_line`: dispatch by verb and comment state; only
lines of the measured block are analyzed. -/
def analyzeLine (cfg : Config) (pos neg : SearchDict) (s : SurveyState) (line : List Char)
    (onCommentLine : Bool) : SurveyState :=
  if decide (s.activeBlock ≠ cfg.measureBlock) then s
  else if cfg.measuringRoutines && !onCommentLine then
    routineAnalyzeImpl cfg pos neg s line
  else if (onCommentLine && cfg.onlyComments) || (onCommentLine && cfg.includeComments) ||
          (!onCommentLine && !cfg.onlyComments) then
    -- the generic `_analyze_line_impl` hook is a pass in `Code`
    if cfg.searching then searchLineImpl cfg pos neg s line else s
  else s

/-- The classification tail of the inner measure loop of
`NBNC._survey_lines`: detect comments, short-circuit on a faux blank,
then measure and analyze. -/
def innerLineClassify (cfg : Config) (pos neg : SearchDict) (s : SurveyState)
    (line : List Char) : SurveyState :=
  let oc := detectLineComment cfg s.scanningMultiLine line
  let s := { s with scanningMultiLine := oc.2 }
  if detectBlankLineHit cfg line then
    { s with counts := { s.counts with fauxBlankLines :=
        (bumpAt s.counts.fauxBlankLines s.activeBlock 1) } }
  else
    let s := measureLine cfg pos neg s line oc.1
    analyzeLine cfg pos neg s line oc.1

/-- Body of the inner measure loop of `NBNC._survey_lines` for one
(already separator-split) raw line: count it, preprocess, short-circuit
on a true blank, detect block changes (resetting the multi-line comment
scan on a change), then classify. -/
def innerLine (cfg : Config) (pos neg : SearchDict) (s : SurveyState) (rawLine : List Char) :
    SurveyState :=
  let s := { s with counts := { s.counts with totalLines :=
      (bumpAt s.counts.totalLines s.activeBlock 1) } }
  let line := preprocessLine cfg rawLine
  if reTrueBlankLine line then
    { s with counts := { s.counts with trueBlankLines :=
        (bumpAt s.counts.trueBlankLines s.activeBlock 1) } }
  else
    let s :=
      if cfg.blockDetectors.length > 1 then
        let sc := detectBlockChange cfg s line
        if sc.2 then { sc.1 with scanningMultiLine := false } else sc.1
      else s
    innerLineClassify cfg pos neg s line

/-- Processing of one buffered input line: count the raw line, update
the whole-file checksum (`Code._alternate_line_processing`), apply the
skip checks, then run the inner loop over the (optionally
separator-split) lines. -/
def processLine (cfg : Config) (pos neg : SearchDict) (s : SurveyState)
    (bufferLine : List Char) : SurveyState :=
  let s := { s with counts := { s.counts with rawLines :=
      (bumpAt s.counts.rawLines s.activeBlock 1) } }
  let s := { s with fileCrc := adler32 (utf8Bytes bufferLine) s.fileCrc }
  if alternateSkip cfg bufferLine then
    { s with counts := { s.counts with skippedLines :=
        (bumpAt s.counts.skippedLines s.activeBlock 1) } }
  else
    let lines :=
      match cfg.addLineSep with
      | some ch => splitOnChar ch bufferLine
      | none => [bufferLine]
    lines.foldl (innerLine cfg pos neg) s

/-- `NBNC._survey_lines` up to (but not including) `_survey_end`:
initialize the per-file state and search dictionaries and fold the
line pipeline over the input. -/
def surveyLines (cfg : Config) (linesToSurvey : List (List Char)) : SurveyState :=
  let pn := setupSearchStrings cfg.effParams
  linesToSurvey.foldl (processLine cfg pn.1 pn.2) (surveyStart cfg)

/-- A measurement value that is written as an empty string when the
count is zero but MEASURE_EMPTIES forces output. -/
inductive MeasVal where
  | num (n : Nat)
  | blank
deriving DecidableEq

/-- The scalar per-file measurements written by `Code._save_measures`.
`none` models an absent dictionary key. The ranking-label fields
(`file.nbncRank`, `file.commentRank`, `nbnc.importRank`) and the float
`nbnc.byteRatio` (keyed off the externally supplied file byte size,
which is absent in a lines-only survey, so never written here) are
presentation-only outputs derived from the fields below and are not
modelled separately. -/
structure FileMeasurements where
  total : Nat
  rawTotal : Option Nat
  ignored : Option Nat
  blankFaux : Nat
  blankTrue : Nat
  nbnc : Nat
  machine : Option MeasVal
  content : Option MeasVal
  codeContent : Option Nat
  blank : Nat
  comment : Nat
  inlineComments : Option MeasVal
  dead : Option MeasVal
  semicolons : Option Nat
  preprocessor : Option Nat
  template : Option Nat
  nbncCrc : Option Nat
  fileCrc : Option Nat
  imports : Option Nat
  decisions : Option Nat
  routines : Option Nat
  classes : Option Nat
deriving DecidableEq

/-- `Code._save_measures`: package the per-file scalar measurements
from the final counter state. -/
def saveMeasures (cfg : Config) (s : SurveyState) : FileMeasurements :=
  let mb := cfg.measureBlock
  let totalLines := s.counts.totalLines.sum
  let rawLines := s.counts.rawLines.sum
  let ignoreLines := s.counts.skippedLines.sum
  let nbncLines := s.counts.measureLines.getD mb 0
  let machineLines := s.counts.measureLines.getD MACHINE 0
  let contentLines := s.counts.measureLines.getD CONTENT 0
  let commentLines0 := s.counts.commentLines.getD mb 0
  let inlineComments := s.counts.asmComments.getD mb 0
  let commentLines :=
    if cfg.commentsInclInline then commentLines0 + inlineComments else commentLines0
  let deadCode := s.counts.deadCode.getD mb 0
  let semicolons := s.counts.semicolons.getD mb 0
  let preprocessor := s.counts.preprocessor.getD mb 0
  let templateLines := s.counts.templateLines.getD mb 0
  let nbncCrc := s.counts.nbncCRC.getD mb 0
  let imports := s.counts.imports.getD mb 0
  let decisions := s.counts.decisions.getD mb 0
  let routines := s.counts.routines.getD mb 0
  let classes := s.counts.classes.getD mb 0
  { total := totalLines
    rawTotal := if decide (rawLines ≠ totalLines) then some rawLines else none
    ignored := if decide (ignoreLines ≠ 0) then some ignoreLines else none
    blankFaux := s.counts.fauxBlankLines.sum
    blankTrue := s.counts.trueBlankLines.sum
    nbnc := nbncLines
    machine :=
      if decide (machineLines ≠ 0) then some (MeasVal.num machineLines)
      else if cfg.writeEmptyMeasures then some MeasVal.blank else none
    content :=
      if decide (contentLines ≠ 0) then some (MeasVal.num contentLines)
      else if cfg.writeEmptyMeasures then some MeasVal.blank else none
    codeContent :=
      if decide (contentLines ≠ 0) || cfg.writeEmptyMeasures then
        some (contentLines + nbncLines)
      else none
    blank := s.counts.fauxBlankLines.getD mb 0 + s.counts.trueBlankLines.getD mb 0
    comment := commentLines
    inlineComments :=
      if decide (inlineComments ≠ 0) then some (MeasVal.num inlineComments)
      else if cfg.writeEmptyMeasures then some MeasVal.blank else none
    dead :=
      if decide (deadCode ≠ 0) then some (MeasVal.num deadCode)
      else if cfg.writeEmptyMeasures then some MeasVal.blank else none
    semicolons := if decide (semicolons ≠ 0) then some semicolons else none
    preprocessor := if decide (preprocessor ≠ 0) then some preprocessor else none
    template := if decide (templateLines ≠ 0) then some templateLines else none
    nbncCrc := if decide (nbncCrc ≠ 0) then some nbncCrc else none
    fileCrc := if decide (s.fileCrc ≠ 0) then some s.fileCrc else none
    imports := if decide (imports ≠ 0) then some imports else none
    decisions := if decide (decisions ≠ 0) then some decisions else none
    routines := if decide (routines ≠ 0) then some routines else none
    classes := if decide (classes ≠ 0) then some classes else none }

/-- `Code._survey` followed by `_survey_end`: run the line pipeline,
package the scalar measurements, and finalize the last routine (a
no-op outside the routines verb). Returns the final state (after the
closing `_save_routine_info`) and the measurements. -/
def survey (cfg : Config) (linesToSurvey : List (List Char)) :
    SurveyState × FileMeasurements :=
  let s := surveyLines cfg linesToSurvey
  let m := saveMeasures cfg s
  (saveRoutineInfo cfg s s.activeBlock, m)

/-- The default machine-generated block detectors
(`Code.blockDetectors[MACHINE]`), in table order. -/
def machineDetectorsDefault : List ((List Char → Bool) × Option (List Char → Bool)) :=
  [(machineRegionGenerated, some machineEndRegion),
   (machineDoNotEdit, none),
   (machineGeneratedBy, none),
   (machineAutoGenerated, none),
   (machineCreatedTool, none)]

/-- The default block detector table of `Code`: human code (index 0,
no detectors), machine (index 1), content (index 2, no detectors). -/
def blockDetectorsDefault : List (List ((List Char → Bool) × Option (List Char → Bool))) :=
  [[], machineDetectorsDefault, []]

/-- Default inline-comment markers of `Code` (matched as literal
substrings by `_has_inline_comment` / `_strip_inlines`). -/
def inlineCommentMatchesDefault : List (List Char) :=
  [str "//", str "[#](?!def|inc|if)", str "/*"]

/-- The `Code` module configuration with every option at its default,
for a given verb and processed parameter list. -/
def defaultConfig (verb : Verb) (params : List (Bool × List Char × RuleMatcher)) : Config where
  writeEmptyMeasures := false
  verb := verb
  params := params
  addLineSep := none
  maxLineLength := 255
  reSkipLine := none
  skipBinaryLines := false
  stripLineBeforeComments := true
  reStringLiteralSub := reStringLiteralSubDefault
  reBlankLine := reBlankLineDefault
  reBlankLineAdd := none
  blankXmlLines := false
  reSingleLineComments := reSingleLineCommentsDefault
  reMultiOpenSearch := reMultiOpenSearchDefault
  reMultiOpenMatch := reMultiOpenMatchDefault
  reMultiCloseSearch := reMultiCloseSearchDefault
  sameLineMultiCloseAsComment := true
  blockChangeIgnore := []
  blockIgnoreFile := []
  measureBlock := HUMAN_CODE
  blockDetectors := blockDetectorsDefault
  reDecision := reDecisionDefault
  complexityInclCases := true
  reCases := reCasesDefault
  complexityInclEscapes := true
  reEscapes := reEscapesDefault
  complexityInclBooleans := false
  reBooleans := reBooleansDefault
  routineInclFileLines := false
  routineSpanBlocks := false
  routineSingleLine := false
  routineOutputSingle := false
  inclDeadCode := true
  reDeadCode := reDeadCodeDefault
  rePreprocessor := rePreprocessorDefault
  commentsInclInline := true
  inlineCommentMatches := inlineCommentMatchesDefault
  reImports := reImportsDefault
  reClass := reClassDefault
  reDefaultRoutineSearch := reDefaultRoutineSearchDefault
  routineAvgIndent := 4
  routineIgnoreCol := 20
  includeComments := false
  onlyComments := false
  includeStringContent := false

/-! ### Concrete survey fixtures used by the claims -/

/-- Default Code configuration under the measure verb. -/
def cfgMeasure : Config := defaultConfig Verb.measure []

/-- Default Code configuration under the routines verb with no
configured routine expressions (the default detector applies). -/
def cfgRoutines : Config := defaultConfig Verb.routines []

/-- The 5-line C-style scenario input of the specification. -/
def linesFive : List (List Char) :=
  [str "// header\n", str "int x = 1;\n", str "if (x) \x7b\n", str "  return x;\n", str "\x7d\n"]

/-- The 3-line multi-line-comment scenario input. -/
def linesMulti : List (List Char) :=
  [str "/*\n", str "foo\n", str "*/\n"]

/-- Default configuration with the COMMENT_CLOSE_CODE option applied
(`self._sameLineMultiCloseAsComment = False`). -/
def cfgCommentCloseCode : Config :=
  { defaultConfig Verb.measure [] with sameLineMultiCloseAsComment := false }

/-- Default configuration with a SKIP_LINES expression that matches
every line (e.g. the empty pattern, which any text contains). -/
def cfgSkipAll : Config :=
  { defaultConfig Verb.measure [] with reSkipLine := some (fun _ => true) }

/-- A literal-text search rule as `add_param` compiles it: a
case-insensitive substring search; a groupless pattern makes
`utils.get_match_string` return the empty string. -/
def literalRule (pat : List Char) : RuleMatcher :=
  fun target => (findSubCI pat target).map (fun _ => MatchRes.mk [] pat)

/-- The positive rule set containing the single rule `foo`. -/
def posFoo : SearchDict := [(str "foo", literalRule (str "foo"))]

/-- The negative rule set containing the single rule `foobar`. -/
def negFoobar : SearchDict := [(str "foobar", literalRule (str "foobar"))]

/-! ### Claims -/

/-- Claim C2 counterexample: surveying the 5-line C-style input with
the default configuration does NOT give `file.nbnc = 4`: the closing
brace line is classified as a faux blank by the default blank-symbol
expression, so only 3 NBNC lines remain. -/
theorem C2_counterexample : (survey cfgMeasure linesFive).2.nbnc ≠ 4 := by
  decide

/-- Claim C2 (amended): the 5-line input yields `file.nbnc = 3`,
`file.comment = 1`, `file.total = 5`, `nbnc.decisions = 1`, with the
closing-brace line counted as the one faux-blank line
(`file.blankFaux = 1`). -/
theorem C2_five_line_scenario :
    (survey cfgMeasure linesFive).2.nbnc = 3 ∧
    (survey cfgMeasure linesFive).2.comment = 1 ∧
    (survey cfgMeasure linesFive).2.total = 5 ∧
    (survey cfgMeasure linesFive).2.decisions = some 1 ∧
    (survey cfgMeasure linesFive).2.blankFaux = 1 := by
  refine ⟨rfl, rfl, rfl, rfl, rfl⟩

/-- Claim C3 counterexample: the `/*`, `foo`, `*/` input does NOT
yield 3 comment lines: the delimiter-only lines match the faux-blank
expression (slash and star are blank symbols) and `_detect_blank_line`
runs unconditionally after comment detection, so they are counted as
faux blanks; `file.comment` is 1. -/
theorem C3_counterexample : (survey cfgMeasure linesMulti).2.comment ≠ 3 := by
  decide

/-- Claim C3 (amended): the 3-line multi-line comment yields 1 comment
line (the interior line), 2 faux-blank lines (the delimiter-only
lines), 0 measured lines and 3 total lines; comment detection before
blank detection maintains the multi-line scanning state, not the
delimiter lines' classification. -/
theorem C3_multiline_scenario :
    (survey cfgMeasure linesMulti).2.comment = 1 ∧
    (survey cfgMeasure linesMulti).2.blankFaux = 2 ∧
    (survey cfgMeasure linesMulti).2.nbnc = 0 ∧
    (survey cfgMeasure linesMulti).2.total = 3 := by
  refine ⟨rfl, rfl, rfl, rfl⟩

/-- Claim C7: the code computes the per-block NBNC checksum over
`line.replace('', ' ')`, which inserts a space around every character
and leaves the line's own whitespace intact (the comment in
`_measure_line_impl` says whitespace is "reduced"). Two one-line files
with identical NBNC content up to intra-line whitespace therefore get
different `nbnc.crc` values: a divergence of the code from its own
documentation and the specification. -/
theorem C7_crc_whitespace_bug :
    ((str "a b").filter (fun c => !(isPySpace c)) =
     (str "a  b").filter (fun c => !(isPySpace c))) ∧
    (survey cfgMeasure [str "a b\n"]).2.nbnc = 1 ∧
    (survey cfgMeasure [str "a  b\n"]).2.nbnc = 1 ∧
    (survey cfgMeasure [str "a b\n"]).2.nbncCrc ≠ (survey cfgMeasure [str "a  b\n"]).2.nbncCrc := by
  refine ⟨rfl, rfl, rfl, by decide⟩

/-- Claim C1 counterexample: with the default Code configuration, the
one-line input `// x();` is a comment line that matches the dead-code
expression, so it increments DeadCode rather than CommentLines; the
four counters named by the claim sum to 0 while TotalLines is 1. -/
theorem C1_counterexample :
    ((survey cfgMeasure [str "// x();\n"]).1.counts.trueBlankLines.getD 0 0 +
     (survey cfgMeasure [str "// x();\n"]).1.counts.fauxBlankLines.getD 0 0 +
     (survey cfgMeasure [str "// x();\n"]).1.counts.commentLines.getD 0 0 +
     (survey cfgMeasure [str "// x();\n"]).1.counts.measureLines.getD 0 0 = 0) ∧
    (survey cfgMeasure [str "// x();\n"]).1.counts.totalLines.getD 0 0 = 1 := by
  refine ⟨rfl, rfl⟩

/-- Claim C9 counterexample: with the default routines configuration,
a 2-line input whose lines never match a routine start finalizes the
implicit whole-file record with NBNC length 2 at end of file
(`savedNbncs = [2]`), yet no analysis row is emitted, because no
routine start was ever seen and neither ROUTINE_FILE_LINES nor
MEASURE_EMPTIES is set — refuting "records with NBNC length > 1 are
appended". -/
theorem C9_counterexample :
    (survey cfgRoutines [str "int a;\n", str "int b;\n"]).1.savedNbncs = [2] ∧
    (survey cfgRoutines [str "int a;\n", str "int b;\n"]).1.analysis = [] := by
  refine ⟨by decide, by decide⟩

/-- Claim C5 counterexample: with COMMENT_CLOSE_CODE set, the line
`/* c */ x` — whose open token is literally first — is NOT counted as
a comment (refuting the claim's second clause), and the line
`x /* c */` — with nothing but whitespace after the close token — is
NOT counted as a comment either (refuting the first clause). -/
theorem C5_counterexample :
    (reMultiOpenMatchDefault
        (stripBlanksAndStrings cfgCommentCloseCode (str "/* c */ x")) = true ∧
     detectLineComment cfgCommentCloseCode false (str "/* c */ x") = (false, false)) ∧
    (reMultiOpenSearchDefault
        (stripBlanksAndStrings cfgCommentCloseCode (str "x /* c */")) = some (str " c */") ∧
     reMultiCloseSearchDefault (str " c */") = some [] ∧
     detectLineComment cfgCommentCloseCode false (str "x /* c */") = (false, false)) := by
  refine ⟨⟨by decide, by decide⟩, by decide, by decide, by decide⟩

/-- Claim C5 (amended): with COMMENT_CLOSE_CODE set, a line that opens
a multi-line comment whose remainder also contains the close pattern is
counted as a comment line iff the open pattern matches at the very
start of the stripped line AND nothing but whitespace follows the
close token; in both cases the multi-line scanning state ends false. -/
theorem C5_same_line_close (line r r2 : List Char)
    (h1 : reSingleLineCommentsDefault (stripBlanksAndStrings cfgCommentCloseCode line) = false)
    (h2 : reMultiOpenSearchDefault (stripBlanksAndStrings cfgCommentCloseCode line) = some r)
    (h3 : reMultiCloseSearchDefault r = some r2) :
    detectLineComment cfgCommentCloseCode false line =
      ((reMultiOpenMatchDefault (stripBlanksAndStrings cfgCommentCloseCode line) &&
        decide (pyStrip r2 = [])), false) := by
  have hcfg1 : cfgCommentCloseCode.reSingleLineComments = reSingleLineCommentsDefault := rfl
  have hcfg2 : cfgCommentCloseCode.reMultiOpenSearch = reMultiOpenSearchDefault := rfl
  have hcfg3 : cfgCommentCloseCode.reMultiCloseSearch = reMultiCloseSearchDefault := rfl
  have hcfg4 : cfgCommentCloseCode.reMultiOpenMatch = reMultiOpenMatchDefault := rfl
  have hcfg5 : cfgCommentCloseCode.sameLineMultiCloseAsComment = false := rfl
  have hcfg6 : cfgCommentCloseCode.stripLineBeforeComments = true := rfl
  simp only [detectLineComment, hcfg1, hcfg2, hcfg3, hcfg4, hcfg5, hcfg6, if_true,
    Bool.not_false, Bool.true_and, h1, h2, h3, if_false, Bool.false_eq_true]
  cases hb : reMultiOpenMatchDefault (stripBlanksAndStrings cfgCommentCloseCode line) with
  | false => simp
  | true =>
      cases he : decide (pyStrip r2 = []) with
      | false =>
          simp only [Bool.not_true, Bool.false_or, Bool.true_and]
          have : decide (pyStrip r2 ≠ []) = true := by
            simp only [decide_eq_true_eq] at he ⊢
            simpa using of_decide_eq_false he
          simp [this]
      | true =>
          have : decide (pyStrip r2 ≠ []) = false := by
            simp only [decide_eq_true_eq] at he
            simp [he]
          simp [this]

/-- Claim C5 witness: the line with the open token first and only
whitespace after the close token is counted as a comment. -/
theorem C5_same_line_close_witness :
    reSingleLineCommentsDefault
      (stripBlanksAndStrings cfgCommentCloseCode (str "/* c */  ")) = false ∧
    reMultiOpenSearchDefault
      (stripBlanksAndStrings cfgCommentCloseCode (str "/* c */  ")) = some (str " c */") ∧
    reMultiCloseSearchDefault (str " c */") = some [] ∧
    detectLineComment cfgCommentCloseCode false (str "/* c */  ") = (true, false) := by
  refine ⟨by decide, by decide, by decide, ?_⟩
  rw [C5_same_line_close (str "/* c */  ") (str " c */") [] (by decide) (by decide) (by decide)]
  decide

/-- `findPositiveMatch` returns exactly the first rule in stored order
whose expression matches the target. -/
theorem findPositiveMatch_is_first (target : List Char) :
    ∀ (pos : SearchDict) (k : List Char) (m : MatchRes),
      findPositiveMatch target pos = some (k, m) →
      ∃ p, pos.find? (fun q => (q.2 target).isSome) = some p ∧
        p.1 = k ∧ p.2 target = some m := by
  intro pos
  induction pos with
  | nil => intro k m h; simp [findPositiveMatch] at h
  | cons hd tl ih =>
      intro k m h
      simp only [findPositiveMatch] at h
      cases hmatch : hd.2 target with
      | some m0 =>
          rw [hmatch] at h
          refine ⟨hd, ?_, ?_, ?_⟩
          · simp [List.find?, hmatch]
          · cases h; rfl
          · cases h; exact hmatch
      | none =>
          rw [hmatch] at h
          obtain ⟨p, hp, hk, hm⟩ := ih k m h
          refine ⟨p, ?_, hk, hm⟩
          simp [List.find?, hmatch, hp]

/-- Claim C6: in the default (positive-first) mode, a returned match is
the first positive rule in stored order that hits the line, and it is
returned only when no negative rule matches; in particular with
positive rule `foo` and negative rule `foobar`, the line
`this has foobar in it` yields no match while `this has foo in it`
yields a match on `foo`. -/
theorem C6_first_match_policy :
    (∀ (target : List Char) (pos neg : SearchDict) (r : List Char × MatchRes),
       firstMatch target pos neg false = some r →
       isNegativeMatch target neg = false ∧
       ∃ p, pos.find? (fun q => (q.2 target).isSome) = some p ∧
         p.1 = r.1 ∧ p.2 target = some r.2) ∧
    firstMatch (str "this has foobar in it") posFoo negFoobar false = none ∧
    (firstMatch (str "this has foo in it") posFoo negFoobar false).map
      (fun r => r.1) = some (str "foo") := by
  refine ⟨?_, by decide, by decide⟩
  intro target pos neg r h
  simp only [firstMatch, Bool.false_eq_true, if_false] at h
  cases hf : findPositiveMatch target pos with
  | none => rw [hf] at h; cases h
  | some mt =>
      rw [hf] at h
      cases hn : isNegativeMatch target neg with
      | true => rw [hn] at h; simp at h
      | false =>
          rw [hn] at h
          simp only [Bool.false_eq_true, if_false] at h
          cases h
          exact ⟨rfl, findPositiveMatch_is_first target pos r.1 r.2 (by
            simpa using hf)⟩

/-- Claim C6 witness: the general clause applied to the concrete
`foo`/`foobar` rule set and the matching line. -/
theorem C6_first_match_witness :
    isNegativeMatch (str "this has foo in it") negFoobar = false ∧
    ∃ p, posFoo.find? (fun q => (q.2 (str "this has foo in it")).isSome) = some p ∧
      p.1 = str "foo" ∧ p.2 (str "this has foo in it") = some (MatchRes.mk [] (str "foo")) :=
  C6_first_match_policy.1 (str "this has foo in it") posFoo negFoobar
    (str "foo", MatchRes.mk [] (str "foo")) (by decide)

set_option maxHeartbeats 1000000 in
/-- Claim C10: the indentation-based routine start fires iff the tab-
expanded indentation depth is strictly positive, the ignore-column
setting is non-zero, and the depth is within both the ignore column and
the current routine's start column; consequently a line with depth 0
(or any line when the ignore column is 0) that has no routine-start
regex match neither emits a routine record nor changes the routine
counter, name, line number or start column. -/
theorem C10_indent_start :
    (∀ (cfg : Config) (cur : RoutineRec) (d : Nat),
       detectIndentStart cfg cur d = true ↔
         (0 < d ∧ cfg.routineIgnoreCol ≠ 0 ∧ (d : Int) ≤ cfg.routineIgnoreCol ∧
          d ≤ cur.lineCol)) ∧
    (∀ (cfg : Config) (pos neg : SearchDict) (s : SurveyState) (line : List Char),
       ((pyExpandTabs cfg.routineAvgIndent line).length -
          (pyLStrip (pyExpandTabs cfg.routineAvgIndent line)).length = 0 ∨
        cfg.routineIgnoreCol = 0) →
       detectRoutineStart cfg pos neg line = none →
       ((routineAnalyzeImpl cfg pos neg s line).analysis = s.analysis ∧
        (routineAnalyzeImpl cfg pos neg s line).counts.routines = s.counts.routines ∧
        (routineAnalyzeImpl cfg pos neg s line).currentRoutine.name = s.currentRoutine.name ∧
        (routineAnalyzeImpl cfg pos neg s line).currentRoutine.lineNum =
          s.currentRoutine.lineNum ∧
        (routineAnalyzeImpl cfg pos neg s line).currentRoutine.lineCol =
          s.currentRoutine.lineCol)) := by
  constructor
  · intro cfg cur d
    simp only [detectIndentStart, Bool.and_eq_true, decide_eq_true_eq]
    constructor
    · rintro ⟨⟨h1, h2, h3⟩, h4⟩
      exact ⟨Nat.pos_of_ne_zero h1, h2, h3, h4⟩
    · rintro ⟨h1, h2, h3, h4⟩
      exact ⟨⟨Nat.pos_iff_ne_zero.mp h1, h2, h3⟩, h4⟩
  · intro cfg pos neg s line hd hmatch
    have hindent :
        detectIndentStart cfg s.currentRoutine
          ((pyExpandTabs cfg.routineAvgIndent line).length -
            (pyLStrip (pyExpandTabs cfg.routineAvgIndent line)).length) = false := by
      rcases hd with hd | hd
      · simp [detectIndentStart, hd]
      · simp [detectIndentStart, hd]
    refine ⟨?_, ?_, ?_, ?_, ?_⟩ <;>
      (simp only [routineAnalyzeImpl, routineStartStep, routineCounterStep, hmatch,
         currentRoutineEnded, Option.isSome_none,
         Bool.false_or, hindent, Bool.false_and, Bool.and_false, if_false,
         Bool.false_eq_true]
       repeat' split
       all_goals rfl)

/-- Claim C10 witness: with the default routines configuration, the
unindented non-matching line `x = 1` starts no routine. -/
theorem C10_indent_start_witness :
    ((pyExpandTabs cfgRoutines.routineAvgIndent (str "x = 1")).length -
       (pyLStrip (pyExpandTabs cfgRoutines.routineAvgIndent (str "x = 1"))).length = 0 ∨
     cfgRoutines.routineIgnoreCol = 0) ∧
    detectRoutineStart cfgRoutines [] [] (str "x = 1") = none ∧
    (routineAnalyzeImpl cfgRoutines [] [] (surveyStart cfgRoutines) (str "x = 1")).analysis =
      (surveyStart cfgRoutines).analysis :=
  ⟨Or.inl (by decide), by decide,
   (C10_indent_start.2 cfgRoutines [] [] (surveyStart cfgRoutines) (str "x = 1")
      (Or.inl (by decide)) (by decide)).1⟩

/-- Claim C4 counterexample: a configured SKIP_LINES expression (here
one matching every line, as the empty pattern does) removes a
whitespace-only line before the true-blank check ever runs: the line
is counted as skipped and TrueBlankLines stays 0, so "no other
configured regex can change this outcome" fails. -/
theorem C4_counterexample :
    reTrueBlankLine (preprocessLine cfgSkipAll (str " \n")) = true ∧
    (survey cfgSkipAll [str " \n"]).1.counts.trueBlankLines.getD 0 0 = 0 ∧
    (survey cfgSkipAll [str " \n"]).1.counts.skippedLines.getD 0 0 = 1 := by
  refine ⟨by decide, by decide, by decide⟩

/-- Claim C4 (amended): for every line that reaches the classification
loop (i.e. is not removed by the SKIP_LINES / binary-line pre-filter,
taking each piece after optional ADD_LINE_SEP splitting) whose
preprocessed text matches the fixed true-blank expression, the line is
classified as a true blank under every configuration: the active
block's TotalLines and TrueBlankLines counters increment and nothing
else in the survey state changes — block detection, comment detection,
faux-blank detection, measurement and analysis are all skipped. -/
theorem C4_true_blank_always_wins (cfg : Config) (pos neg : SearchDict) (s : SurveyState)
    (rawLine : List Char) (h : reTrueBlankLine (preprocessLine cfg rawLine) = true) :
    innerLine cfg pos neg s rawLine =
      { s with counts := { s.counts with
          totalLines := bumpAt s.counts.totalLines s.activeBlock 1
          trueBlankLines := bumpAt s.counts.trueBlankLines s.activeBlock 1 } } := by
  simp only [innerLine, h, if_true]

/-- Claim C4 witness: the amended statement at a concrete whitespace
line under the default configuration. -/
theorem C4_true_blank_witness :
    reTrueBlankLine (preprocessLine cfgMeasure (str " \t\n")) = true ∧
    innerLine cfgMeasure [] [] (surveyStart cfgMeasure) (str " \t\n") =
      { surveyStart cfgMeasure with counts := { (surveyStart cfgMeasure).counts with
          totalLines := bumpAt (surveyStart cfgMeasure).counts.totalLines
            (surveyStart cfgMeasure).activeBlock 1
          trueBlankLines := bumpAt (surveyStart cfgMeasure).counts.trueBlankLines
            (surveyStart cfgMeasure).activeBlock 1 } } :=
  ⟨by decide, C4_true_blank_always_wins cfgMeasure [] [] (surveyStart cfgMeasure)
    (str " \t\n") (by decide)⟩

/-- Claim C9 (amended): a finalized routine record is appended to the
analysis rows iff routine measuring is on, the save's block is the
measure block (or block spanning is enabled), the record's NBNC length
exceeds 1 OR the ROUTINE_OUTPUT_SINGLE option OR the MEASURE_EMPTIES
option is set, and metrics are computable (a routine start was seen
since the last block transition, or ROUTINE_FILE_LINES is set) or
MEASURE_EMPTIES is set. In particular MEASURE_EMPTIES also lets
length-at-most-1 records through, and a record of length above 1 is
dropped when no routine start was ever seen. -/
theorem C9_routine_output (cfg : Config) (s : SurveyState) (b : Nat) :
    (saveRoutineInfo cfg s b).analysis.length =
      s.analysis.length +
        (if (cfg.measuringRoutines &&
              (decide (b = cfg.measureBlock) || cfg.routineSpanBlocks) &&
              (decide ((1 : Int) <
                  (s.counts.measureLines.getD b 0 : Int) -
                    (s.totalNbncAtLastRoutine.getD b 0 : Int)) ||
               cfg.routineOutputSingle || cfg.writeEmptyMeasures) &&
              (s.foundFirstRoutineSinceTransition || cfg.routineInclFileLines ||
               cfg.writeEmptyMeasures)) = true
         then 1 else 0) := by
  cases hm : cfg.measuringRoutines with
  | false => simp [saveRoutineInfo, hm]
  | true =>
    by_cases henter : (b = cfg.measureBlock ∨ cfg.routineSpanBlocks = true)
    case neg =>
      obtain ⟨hbne, hsp⟩ := not_or.mp henter
      have hspf : cfg.routineSpanBlocks = false := Bool.eq_false_iff.mpr hsp
      simp [saveRoutineInfo, hm, hbne, hspf]
    case pos =>
      by_cases hwe : cfg.writeEmptyMeasures = true
      case pos =>
        by_cases hcm : (s.foundFirstRoutineSinceTransition = true ∨
            cfg.routineInclFileLines = true)
        case pos =>
          rcases henter with rfl | he <;> rcases hcm with hc | hc <;>
            simp_all [saveRoutineInfo, List.length_append]
        case neg =>
          obtain ⟨hf1, hf2⟩ := not_or.mp hcm
          have hf1f : s.foundFirstRoutineSinceTransition = false := Bool.eq_false_iff.mpr hf1
          have hf2f : cfg.routineInclFileLines = false := Bool.eq_false_iff.mpr hf2
          rcases henter with rfl | he <;>
            simp_all [saveRoutineInfo, List.length_append]
      case neg =>
        have hwef : cfg.writeEmptyMeasures = false := Bool.eq_false_iff.mpr hwe
        by_cases h3 : ((1 : Int) <
            (s.counts.measureLines.getD b 0 : Int) -
              (s.totalNbncAtLastRoutine.getD b 0 : Int) ∨ cfg.routineOutputSingle = true)
        case neg =>
          obtain ⟨hn1, hn2⟩ := not_or.mp h3
          have hn2f : cfg.routineOutputSingle = false := Bool.eq_false_iff.mpr hn2
          rcases henter with rfl | he <;>
            simp_all [saveRoutineInfo, List.length_append]
        case pos =>
          by_cases hcm : (s.foundFirstRoutineSinceTransition = true ∨
              cfg.routineInclFileLines = true)
          case pos =>
            rcases henter with rfl | he <;> rcases h3 with h3 | h3 <;> rcases hcm with hc | hc <;>
              simp_all [saveRoutineInfo, List.length_append]
          case neg =>
            obtain ⟨hf1, hf2⟩ := not_or.mp hcm
            have hf1f : s.foundFirstRoutineSinceTransition = false := Bool.eq_false_iff.mpr hf1
            have hf2f : cfg.routineInclFileLines = false := Bool.eq_false_iff.mpr hf2
            rcases henter with rfl | he <;> rcases h3 with h3 | h3 <;>
              simp_all [saveRoutineInfo, List.length_append]

/-! ### Counter-list lemmas -/

/-- Pointwise effect of `bumpAt`. -/
theorem bumpAt_getD (l : List Nat) (i k j : Nat) :
    (bumpAt l i k).getD j 0 = l.getD j 0 + (if j = i ∧ i < l.length then k else 0) := by
  unfold bumpAt
  rw [List.getD_eq_getElem?_getD, List.getD_eq_getElem?_getD, List.getElem?_set]
  rcases eq_or_ne i j with rfl | hij
  · by_cases hi : i < l.length
    · simp [hi, List.getD_eq_getElem?_getD]
    · simp [hi, List.getElem?_eq_none (Nat.le_of_not_lt hi)]
  · simp [hij, Ne.symm hij]

/-- `bumpAt` never decreases an entry. -/
theorem getD_le_bumpAt (l : List Nat) (i k j : Nat) :
    l.getD j 0 ≤ (bumpAt l i k).getD j 0 := by
  rw [bumpAt_getD]
  exact Nat.le_add_right _ _

/-- Pointwise effect of `setAt`. -/
theorem setAt_getD (l : List Nat) (i v j : Nat) :
    (setAt l i v).getD j 0 = if j = i ∧ i < l.length then v else l.getD j 0 := by
  unfold setAt
  rw [List.getD_eq_getElem?_getD, List.getElem?_set]
  rcases eq_or_ne i j with rfl | hij
  · by_cases hi : i < l.length
    · simp [hi]
    · simp [hi, List.getElem?_eq_none (Nat.le_of_not_lt hi), List.getD_eq_getElem?_getD]
  · simp [hij, Ne.symm hij, List.getD_eq_getElem?_getD]

/-- Entries of an all-zero counter list. -/
theorem getD_replicate_zero (n j : Nat) : (List.replicate n (0 : Nat)).getD j 0 = 0 := by
  rw [List.getD_eq_getElem?_getD, List.getElem?_replicate]
  split <;> rfl

/-- `bumpAt` preserves length. -/
theorem bumpAt_length (l : List Nat) (i k : Nat) : (bumpAt l i k).length = l.length :=
  List.length_set l i _

/-! ### Field-effect lemmas for `_save_routine_info` -/

/-- `_save_routine_info` never changes the counter arrays. -/
theorem saveRoutineInfo_counts (cfg : Config) (s : SurveyState) (b : Nat) :
    (saveRoutineInfo cfg s b).counts = s.counts := by
  simp only [saveRoutineInfo, apply_ite SurveyState.counts, ite_self]

/-- `_save_routine_info` never changes the block-change count. -/
theorem saveRoutineInfo_blockChanges (cfg : Config) (s : SurveyState) (b : Nat) :
    (saveRoutineInfo cfg s b).blockChanges = s.blockChanges := by
  simp only [saveRoutineInfo, apply_ite SurveyState.blockChanges, ite_self]

/-- `_save_routine_info` never changes the active block. -/
theorem saveRoutineInfo_activeBlock (cfg : Config) (s : SurveyState) (b : Nat) :
    (saveRoutineInfo cfg s b).activeBlock = s.activeBlock := by
  simp only [saveRoutineInfo, apply_ite SurveyState.activeBlock, ite_self]

/-- The recorded NBNC totals after `_save_routine_info` are either
untouched or reset to the current NBNC counter of the saved block. -/
theorem saveRoutineInfo_totalNbnc (cfg : Config) (s : SurveyState) (b : Nat) :
    (saveRoutineInfo cfg s b).totalNbncAtLastRoutine = s.totalNbncAtLastRoutine ∨
    (saveRoutineInfo cfg s b).totalNbncAtLastRoutine =
      setAt s.totalNbncAtLastRoutine b (s.counts.measureLines.getD b 0) := by
  simp only [saveRoutineInfo, apply_ite SurveyState.totalNbncAtLastRoutine, ite_self]
  split
  · exact Or.inl rfl
  split
  · exact Or.inl rfl
  split
  · exact Or.inl rfl
  split
  · exact Or.inr rfl
  · exact Or.inl rfl

/-- The assertion flag after `_save_routine_info` is the old flag,
possibly OR-ed with the sign test of the computed routine length. -/
theorem saveRoutineInfo_assert (cfg : Config) (s : SurveyState) (b : Nat) :
    (saveRoutineInfo cfg s b).assertNbncFailed = s.assertNbncFailed ∨
    (saveRoutineInfo cfg s b).assertNbncFailed =
      (s.assertNbncFailed ||
        decide ((s.counts.measureLines.getD b 0 : Int) -
          (s.totalNbncAtLastRoutine.getD b 0 : Int) < 0)) := by
  simp only [saveRoutineInfo, apply_ite SurveyState.assertNbncFailed, ite_self]
  split
  · exact Or.inl rfl
  split
  · exact Or.inl rfl
  · exact Or.inr rfl

/-- The recorded routine lengths after `_save_routine_info` are the old
list, possibly extended by the newly computed length. -/
theorem saveRoutineInfo_savedNbncs (cfg : Config) (s : SurveyState) (b : Nat) :
    (saveRoutineInfo cfg s b).savedNbncs = s.savedNbncs ∨
    (saveRoutineInfo cfg s b).savedNbncs =
      s.savedNbncs ++ [(s.counts.measureLines.getD b 0 : Int) -
        (s.totalNbncAtLastRoutine.getD b 0 : Int)] := by
  simp only [saveRoutineInfo, apply_ite SurveyState.savedNbncs, ite_self]
  split
  · exact Or.inl rfl
  split
  · exact Or.inl rfl
  · exact Or.inr rfl

/-! ### The routine NBNC assertion invariant (claim C8) -/

/-- Invariant behind the `assert routineNbnc >= 0` statement of
`Code._save_routine_info`: the NBNC totals recorded at the last
routine save never exceed the current per-block NBNC counters, the
assertion has never fired, and every recorded routine length is
non-negative. -/
def NbncInv (s : SurveyState) : Prop :=
  (∀ b, s.totalNbncAtLastRoutine.getD b 0 ≤ s.counts.measureLines.getD b 0) ∧
  s.assertNbncFailed = false ∧ ∀ x ∈ s.savedNbncs, 0 ≤ x

/-- `_save_routine_info` preserves the NBNC invariant. -/
theorem nbncInv_saveRoutineInfo (cfg : Config) (s : SurveyState) (b : Nat)
    (h : NbncInv s) : NbncInv (saveRoutineInfo cfg s b) := by
  obtain ⟨h1, h2, h3⟩ := h
  refine ⟨?_, ?_, ?_⟩
  · intro j
    rw [saveRoutineInfo_counts]
    rcases saveRoutineInfo_totalNbnc cfg s b with he | he <;> rw [he]
    · exact h1 j
    · rw [setAt_getD]
      split
      case isTrue hj => rw [hj.1]
      case isFalse hj => exact h1 j
  · rcases saveRoutineInfo_assert cfg s b with he | he <;> rw [he]
    · exact h2
    · simp only [h2, Bool.false_or, decide_eq_false_iff_not]
      have := h1 b
      omega
  · intro x hx
    rcases saveRoutineInfo_savedNbncs cfg s b with he | he <;> rw [he] at hx
    · exact h3 x hx
    · simp only [List.mem_append, List.mem_singleton] at hx
      rcases hx with hx | hx
      · exact h3 x hx
      · subst hx
        have := h1 b
        omega

/-- `_block_change_event` preserves the NBNC invariant. -/
theorem nbncInv_blockChangeEvent (cfg : Config) (s : SurveyState) (b : Nat)
    (h : NbncInv s) : NbncInv (blockChangeEvent cfg s b) := by
  unfold blockChangeEvent
  split
  · exact nbncInv_saveRoutineInfo cfg _ b h
  · exact h

/-- The block-0 detector scan preserves the NBNC invariant (it only
touches the active-block fields). -/
theorem nbncInv_blockZeroScan (cfg : Config) (s : SurveyState) (line : List Char)
    (h : NbncInv s) : NbncInv (blockZeroScan cfg s line) := by
  unfold blockZeroScan
  cases findBlockStart cfg line with
  | none => exact h
  | some bn =>
      dsimp only
      split
      · exact h
      · exact h

/-- `_detect_block_change` preserves the NBNC invariant. -/
theorem nbncInv_detectBlockChange (cfg : Config) (s : SurveyState) (line : List Char)
    (h : NbncInv s) : NbncInv (detectBlockChange cfg s line).1 := by
  unfold detectBlockChange
  split
  · exact h
  split
  · exact h
  split
  · exact h
  split
  · split
    · dsimp only
      split
      · exact nbncInv_blockChangeEvent cfg _ 0 (nbncInv_blockZeroScan cfg _ line h)
      · exact nbncInv_blockZeroScan cfg _ line h
    · split
      · split
        · dsimp only
          exact nbncInv_blockChangeEvent cfg _ _ h
        · exact h
      · exact h
  · dsimp only
    split
    · exact nbncInv_blockChangeEvent cfg _ _ (nbncInv_blockZeroScan cfg _ line h)
    · exact nbncInv_blockZeroScan cfg _ line h

/-- `_measure_line_impl` preserves the NBNC invariant (it touches only
checksum/semicolon/import/class/preprocessor/routine/decision counters). -/
theorem nbncInv_measureLineImpl (cfg : Config) (s : SurveyState) (line strippedLine : List Char)
    (h : NbncInv s) : NbncInv (measureLineImpl cfg s line strippedLine) := by
  unfold measureLineImpl
  dsimp only
  repeat' split
  all_goals exact h

/-- `_measure_line` preserves the NBNC invariant: the only write to the
measuring block's `MeasureLines` counter is an increment. -/
theorem nbncInv_measureLine (cfg : Config) (pos neg : SearchDict) (s : SurveyState)
    (line : List Char) (onC : Bool) (h : NbncInv s) :
    NbncInv (measureLine cfg pos neg s line onC) := by
  obtain ⟨h1, h2, h3⟩ := h
  unfold measureLine
  split
  · split
    · split
      · exact ⟨h1, h2, h3⟩
      · split
        · exact ⟨h1, h2, h3⟩
        · exact ⟨h1, h2, h3⟩
    · dsimp only
      apply nbncInv_measureLineImpl
      split
      · exact ⟨fun j => le_trans (h1 j) (getD_le_bumpAt _ _ _ j), h2, h3⟩
      · exact ⟨fun j => le_trans (h1 j) (getD_le_bumpAt _ _ _ j), h2, h3⟩
  · split
    · exact ⟨fun j => le_trans (h1 j) (getD_le_bumpAt _ _ _ j), h2, h3⟩
    · split
      · exact ⟨fun j => le_trans (h1 j) (getD_le_bumpAt _ _ _ j), h2, h3⟩
      · exact ⟨h1, h2, h3⟩

/-- `_search_line_impl` preserves the NBNC invariant (it only appends
analysis rows). -/
theorem nbncInv_searchLineImpl (cfg : Config) (pos neg : SearchDict) (s : SurveyState)
    (line : List Char) (h : NbncInv s) : NbncInv (searchLineImpl cfg pos neg s line) := by
  unfold searchLineImpl
  dsimp only
  split
  · exact h
  · exact h

/-- `_current_routine_ended` preserves the NBNC invariant in its
returned state. -/
theorem nbncInv_currentRoutineEnded (cfg : Config) (s : SurveyState) (line : List Char)
    (sm : Option (List Char × MatchRes)) (d : Nat) (h : NbncInv s) :
    NbncInv (currentRoutineEnded cfg s line sm d).2 := by
  unfold currentRoutineEnded
  dsimp only
  split
  · exact h
  · exact h

set_option maxHeartbeats 1000000

/-- The routine-start step preserves the NBNC invariant: the only
writes to the invariant's fields happen inside `_save_routine_info`. -/
theorem nbncInv_routineStartStep (cfg : Config) (s : SurveyState) (line : List Char)
    (sm : Option (List Char × MatchRes)) (ended : Bool) (d n : Nat) (h : NbncInv s) :
    NbncInv (routineStartStep cfg s line sm ended d n) := by
  unfold routineStartStep
  split
  · dsimp only
    split
    · exact nbncInv_saveRoutineInfo cfg s s.activeBlock h
    · exact nbncInv_saveRoutineInfo cfg s s.activeBlock h
  · exact h

/-- The per-routine counter step preserves the NBNC invariant. -/
theorem nbncInv_routineCounterStep (cfg : Config) (s : SurveyState) (complexLine : List Char)
    (rn : Int) (h : NbncInv s) : NbncInv (routineCounterStep cfg s complexLine rn) := by
  unfold routineCounterStep
  dsimp only
  repeat' split
  all_goals exact h

/-- `_routine_analyze_impl` preserves the NBNC invariant. -/
theorem nbncInv_routineAnalyzeImpl (cfg : Config) (pos neg : SearchDict) (s : SurveyState)
    (line : List Char) (h : NbncInv s) : NbncInv (routineAnalyzeImpl cfg pos neg s line) := by
  unfold routineAnalyzeImpl
  dsimp only
  exact nbncInv_routineCounterStep cfg _ _ _
    (nbncInv_routineStartStep cfg _ line _ _ _ _
      (nbncInv_currentRoutineEnded cfg s line _ _ h))

set_option maxHeartbeats 400000

/-- `_analyze_line` preserves the NBNC invariant. -/
theorem nbncInv_analyzeLine (cfg : Config) (pos neg : SearchDict) (s : SurveyState)
    (line : List Char) (onC : Bool) (h : NbncInv s) :
    NbncInv (analyzeLine cfg pos neg s line onC) := by
  unfold analyzeLine
  split
  · exact h
  split
  · exact nbncInv_routineAnalyzeImpl cfg pos neg s line h
  split
  · split
    · exact nbncInv_searchLineImpl cfg pos neg s line h
    · exact h
  · exact h

/-- The classification tail preserves the NBNC invariant. -/
theorem nbncInv_innerLineClassify (cfg : Config) (pos neg : SearchDict) (s : SurveyState)
    (line : List Char) (h : NbncInv s) : NbncInv (innerLineClassify cfg pos neg s line) := by
  unfold innerLineClassify
  dsimp only
  split
  · exact h
  · exact nbncInv_analyzeLine cfg pos neg _ line _
      (nbncInv_measureLine cfg pos neg _ line _ h)

/-- The inner per-line pipeline preserves the NBNC invariant. -/
theorem nbncInv_innerLine (cfg : Config) (pos neg : SearchDict) (s : SurveyState)
    (rawLine : List Char) (h : NbncInv s) : NbncInv (innerLine cfg pos neg s rawLine) := by
  obtain ⟨h1, h2, h3⟩ := h
  unfold innerLine
  dsimp only
  split
  · exact ⟨h1, h2, h3⟩
  · repeat' split
    all_goals
      first
      | exact nbncInv_innerLineClassify cfg pos neg _ _ ⟨h1, h2, h3⟩
      | exact nbncInv_innerLineClassify cfg pos neg _ _
          (nbncInv_detectBlockChange cfg _ _ ⟨h1, h2, h3⟩)

/-- Folding an NBNC-invariant-preserving step over a line list
preserves the invariant. -/
theorem nbncInv_foldl (f : SurveyState → List Char → SurveyState)
    (hf : ∀ t x, NbncInv t → NbncInv (f t x)) :
    ∀ (ls : List (List Char)) (t : SurveyState), NbncInv t → NbncInv (ls.foldl f t)
  | [], _, ht => ht
  | x :: xs, t, ht => nbncInv_foldl f hf xs (f t x) (hf t x ht)

/-- The buffered-line pipeline preserves the NBNC invariant. -/
theorem nbncInv_processLine (cfg : Config) (pos neg : SearchDict) (s : SurveyState)
    (bufferLine : List Char) (h : NbncInv s) : NbncInv (processLine cfg pos neg s bufferLine) := by
  obtain ⟨h1, h2, h3⟩ := h
  unfold processLine
  dsimp only
  split
  · exact ⟨h1, h2, h3⟩
  · exact nbncInv_foldl _ (fun t x ht => nbncInv_innerLine cfg pos neg t x ht) _ _ ⟨h1, h2, h3⟩

/-- The initial survey state satisfies the NBNC invariant. -/
theorem nbncInv_surveyStart (cfg : Config) : NbncInv (surveyStart cfg) :=
  ⟨fun _ => Nat.le_refl _, rfl, fun x hx => absurd hx (List.not_mem_nil x)⟩

/-- The whole line fold satisfies the NBNC invariant. -/
theorem nbncInv_surveyLines (cfg : Config) (lines : List (List Char)) :
    NbncInv (surveyLines cfg lines) := by
  unfold surveyLines
  dsimp only
  exact nbncInv_foldl _ (fun t x ht => nbncInv_processLine cfg _ _ t x ht) lines _
    (nbncInv_surveyStart cfg)

/-- Claim C8: for every configuration and every input, the routine NBNC
length computed at each routine finalization (the measuring block's
NBNC counter minus its value at the previous save) is nonnegative, so
the `assert routineNbnc >= 0` of `_save_routine_info` never fires. -/
theorem C8_routine_nbnc_nonneg (cfg : Config) (lines : List (List Char)) :
    (survey cfg lines).1.assertNbncFailed = false ∧
    ((survey cfg lines).1.savedNbncs.all (fun x => decide (0 ≤ x))) = true := by
  have h := nbncInv_saveRoutineInfo cfg (surveyLines cfg lines)
    (surveyLines cfg lines).activeBlock (nbncInv_surveyLines cfg lines)
  refine ⟨h.2.1, ?_⟩
  rw [List.all_eq_true]
  intro x hx
  exact decide_eq_true (h.2.2 x hx)

/-! ### Per-block line-class bookkeeping (claim C1) -/

/-- The fields relevant to the per-block line-class identity: the
active block, the block-change instrumentation counter, and the seven
per-block line-class counter lists. `ClassFields t u` says `u` agrees
with `t` on all of them. -/
def ClassFields (t u : SurveyState) : Prop :=
  u.activeBlock = t.activeBlock ∧
  u.blockChanges = t.blockChanges ∧
  u.counts.trueBlankLines = t.counts.trueBlankLines ∧
  u.counts.fauxBlankLines = t.counts.fauxBlankLines ∧
  u.counts.commentLines = t.counts.commentLines ∧
  u.counts.deadCode = t.counts.deadCode ∧
  u.counts.templateLines = t.counts.templateLines ∧
  u.counts.measureLines = t.counts.measureLines ∧
  u.counts.totalLines = t.counts.totalLines

/-- `ClassFields` is transitive. -/
theorem classFields_trans {t u v : SurveyState} (h1 : ClassFields t u)
    (h2 : ClassFields u v) : ClassFields t v :=
  ⟨h2.1.trans h1.1, h2.2.1.trans h1.2.1, h2.2.2.1.trans h1.2.2.1,
   h2.2.2.2.1.trans h1.2.2.2.1, h2.2.2.2.2.1.trans h1.2.2.2.2.1,
   h2.2.2.2.2.2.1.trans h1.2.2.2.2.2.1, h2.2.2.2.2.2.2.1.trans h1.2.2.2.2.2.2.1,
   h2.2.2.2.2.2.2.2.1.trans h1.2.2.2.2.2.2.2.1, h2.2.2.2.2.2.2.2.2.trans h1.2.2.2.2.2.2.2.2⟩

/-- `_save_routine_info` leaves all class fields unchanged. -/
theorem classFields_saveRoutineInfo (cfg : Config) (t : SurveyState) (b : Nat) :
    ClassFields t (saveRoutineInfo cfg t b) :=
  ⟨saveRoutineInfo_activeBlock cfg t b, saveRoutineInfo_blockChanges cfg t b,
   congrArg Counts.trueBlankLines (saveRoutineInfo_counts cfg t b),
   congrArg Counts.fauxBlankLines (saveRoutineInfo_counts cfg t b),
   congrArg Counts.commentLines (saveRoutineInfo_counts cfg t b),
   congrArg Counts.deadCode (saveRoutineInfo_counts cfg t b),
   congrArg Counts.templateLines (saveRoutineInfo_counts cfg t b),
   congrArg Counts.measureLines (saveRoutineInfo_counts cfg t b),
   congrArg Counts.totalLines (saveRoutineInfo_counts cfg t b)⟩

/-- `_measure_line_impl` leaves all class fields unchanged. -/
theorem classFields_measureLineImpl (cfg : Config) (t : SurveyState) (line sl : List Char) :
    ClassFields t (measureLineImpl cfg t line sl) := by
  unfold measureLineImpl
  dsimp only
  repeat' split
  all_goals exact ⟨rfl, rfl, rfl, rfl, rfl, rfl, rfl, rfl, rfl⟩

/-- `_current_routine_ended` leaves all class fields unchanged. -/
theorem classFields_currentRoutineEnded (cfg : Config) (t : SurveyState) (line : List Char)
    (sm : Option (List Char × MatchRes)) (d : Nat) :
    ClassFields t (currentRoutineEnded cfg t line sm d).2 := by
  unfold currentRoutineEnded
  dsimp only
  split
  · exact ⟨rfl, rfl, rfl, rfl, rfl, rfl, rfl, rfl, rfl⟩
  · exact ⟨rfl, rfl, rfl, rfl, rfl, rfl, rfl, rfl, rfl⟩

/-- The routine-start step leaves all class fields unchanged (the
routine counter it may bump is not a class counter). -/
theorem classFields_routineStartStep (cfg : Config) (t : SurveyState) (line : List Char)
    (sm : Option (List Char × MatchRes)) (ended : Bool) (d n : Nat) :
    ClassFields t (routineStartStep cfg t line sm ended d n) := by
  unfold routineStartStep
  split
  · dsimp only
    split
    · exact classFields_trans (classFields_saveRoutineInfo cfg t t.activeBlock)
        ⟨rfl, rfl, rfl, rfl, rfl, rfl, rfl, rfl, rfl⟩
    · exact classFields_trans (classFields_saveRoutineInfo cfg t t.activeBlock)
        ⟨rfl, rfl, rfl, rfl, rfl, rfl, rfl, rfl, rfl⟩
  · exact ⟨rfl, rfl, rfl, rfl, rfl, rfl, rfl, rfl, rfl⟩

/-- The per-routine counter step leaves all class fields unchanged. -/
theorem classFields_routineCounterStep (cfg : Config) (t : SurveyState)
    (complexLine : List Char) (rn : Int) :
    ClassFields t (routineCounterStep cfg t complexLine rn) := by
  unfold routineCounterStep
  dsimp only
  repeat' split
  all_goals exact ⟨rfl, rfl, rfl, rfl, rfl, rfl, rfl, rfl, rfl⟩

/-- `_routine_analyze_impl` leaves all class fields unchanged. -/
theorem classFields_routineAnalyzeImpl (cfg : Config) (pos neg : SearchDict)
    (t : SurveyState) (line : List Char) :
    ClassFields t (routineAnalyzeImpl cfg pos neg t line) := by
  unfold routineAnalyzeImpl
  dsimp only
  exact classFields_trans
    (classFields_trans (classFields_currentRoutineEnded cfg t line _ _)
      (classFields_routineStartStep cfg _ line _ _ _ _))
    (classFields_routineCounterStep cfg _ _ _)

/-- `_search_line_impl` leaves all class fields unchanged. -/
theorem classFields_searchLineImpl (cfg : Config) (pos neg : SearchDict) (t : SurveyState)
    (line : List Char) : ClassFields t (searchLineImpl cfg pos neg t line) := by
  unfold searchLineImpl
  dsimp only
  split
  · exact ⟨rfl, rfl, rfl, rfl, rfl, rfl, rfl, rfl, rfl⟩
  · exact ⟨rfl, rfl, rfl, rfl, rfl, rfl, rfl, rfl, rfl⟩

/-- `_analyze_line` leaves all class fields unchanged. -/
theorem classFields_analyzeLine (cfg : Config) (pos neg : SearchDict) (t : SurveyState)
    (line : List Char) (onC : Bool) :
    ClassFields t (analyzeLine cfg pos neg t line onC) := by
  unfold analyzeLine
  split
  · exact ⟨rfl, rfl, rfl, rfl, rfl, rfl, rfl, rfl, rfl⟩
  split
  · exact classFields_routineAnalyzeImpl cfg pos neg t line
  split
  · split
    · exact classFields_searchLineImpl cfg pos neg t line
    · exact ⟨rfl, rfl, rfl, rfl, rfl, rfl, rfl, rfl, rfl⟩
  · exact ⟨rfl, rfl, rfl, rfl, rfl, rfl, rfl, rfl, rfl⟩

/-- `_block_change_event` bumps the instrumentation counter by exactly
one. -/
theorem blockChangeEvent_bc (cfg : Config) (s : SurveyState) (b : Nat) :
    (blockChangeEvent cfg s b).blockChanges = s.blockChanges + 1 := by
  unfold blockChangeEvent
  dsimp only
  split
  · exact saveRoutineInfo_blockChanges cfg _ b
  · rfl

/-- `_block_change_event` leaves the counters unchanged. -/
theorem blockChangeEvent_counts (cfg : Config) (s : SurveyState) (b : Nat) :
    (blockChangeEvent cfg s b).counts = s.counts := by
  unfold blockChangeEvent
  dsimp only
  split
  · exact saveRoutineInfo_counts cfg _ b
  · rfl

/-- The block-0 scan leaves the counters unchanged. -/
theorem blockZeroScan_counts (cfg : Config) (s : SurveyState) (line : List Char) :
    (blockZeroScan cfg s line).counts = s.counts := by
  unfold blockZeroScan
  cases findBlockStart cfg line with
  | none => rfl
  | some bn =>
      dsimp only
      split
      · rfl
      · rfl

/-- The block-0 scan leaves the instrumentation counter unchanged. -/
theorem blockZeroScan_bc (cfg : Config) (s : SurveyState) (line : List Char) :
    (blockZeroScan cfg s line).blockChanges = s.blockChanges := by
  unfold blockZeroScan
  cases findBlockStart cfg line with
  | none => rfl
  | some bn =>
      dsimp only
      split
      · rfl
      · rfl

/-- Effect of `_detect_block_change` on the bookkeeping fields: the
counters never change; if the block changed the instrumentation counter
was bumped by one; otherwise it is unchanged and the active block is
either unchanged or reset to block 0 (a single-line block ending). -/
theorem detectBlockChange_spec (cfg : Config) (s : SurveyState) (line : List Char) :
    (detectBlockChange cfg s line).1.counts = s.counts ∧
    ((detectBlockChange cfg s line).2 = true →
       (detectBlockChange cfg s line).1.blockChanges = s.blockChanges + 1) ∧
    ((detectBlockChange cfg s line).2 = false →
       (detectBlockChange cfg s line).1.blockChanges = s.blockChanges ∧
       ((detectBlockChange cfg s line).1.activeBlock = s.activeBlock ∨
        (detectBlockChange cfg s line).1.activeBlock = 0)) := by
  refine ⟨?_, ?_, ?_⟩
  · unfold detectBlockChange
    split
    · rfl
    split
    · rfl
    split
    · rfl
    split
    · split
      · dsimp only
        split
        · exact (blockChangeEvent_counts cfg _ 0).trans (blockZeroScan_counts cfg _ line)
        · exact blockZeroScan_counts cfg _ line
      · split
        · split
          · exact blockChangeEvent_counts cfg _ _
          · rfl
        · rfl
    · dsimp only
      split
      · exact (blockChangeEvent_counts cfg _ _).trans (blockZeroScan_counts cfg _ line)
      · exact blockZeroScan_counts cfg _ line
  · unfold detectBlockChange
    split
    · exact fun ht => Bool.noConfusion ht
    split
    · exact fun ht => Bool.noConfusion ht
    split
    · exact fun ht => Bool.noConfusion ht
    split
    · split
      · dsimp only
        split
        · exact fun _ => (blockChangeEvent_bc cfg _ 0).trans
            (congrArg (· + 1) (blockZeroScan_bc cfg _ line))
        · exact fun ht => Bool.noConfusion ht
      · split
        · split
          · exact fun _ => blockChangeEvent_bc cfg _ _
          · exact fun ht => Bool.noConfusion ht
        · exact fun ht => Bool.noConfusion ht
    · dsimp only
      split
      · exact fun _ => (blockChangeEvent_bc cfg _ _).trans
          (congrArg (· + 1) (blockZeroScan_bc cfg _ line))
      · exact fun ht => Bool.noConfusion ht
  · unfold detectBlockChange
    split
    · exact fun _ => ⟨rfl, Or.inl rfl⟩
    split
    · exact fun _ => ⟨rfl, Or.inl rfl⟩
    split
    · exact fun _ => ⟨rfl, Or.inl rfl⟩
    split
    · split
      · dsimp only
        split
        · exact fun hf => Bool.noConfusion hf
        · intro hf
          refine ⟨blockZeroScan_bc cfg _ line, Or.inr ?_⟩
          rename_i hne
          exact Decidable.of_not_not (fun hx => hne (decide_eq_true hx))
      · split
        · split
          · exact fun hf => Bool.noConfusion hf
          · exact fun _ => ⟨rfl, Or.inl rfl⟩
        · exact fun _ => ⟨rfl, Or.inl rfl⟩
    · dsimp only
      split
      · exact fun hf => Bool.noConfusion hf
      · intro hf
        refine ⟨blockZeroScan_bc cfg _ line, Or.inl ?_⟩
        rename_i hne
        exact Decidable.of_not_not (fun hx => hne (decide_eq_true hx))

/-- On a changed block, `_detect_block_change` bumped the
instrumentation counter. -/
theorem detectBlockChange_true (cfg : Config) (s : SurveyState) (line : List Char)
    (ht : (detectBlockChange cfg s line).2 = true) :
    (detectBlockChange cfg s line).1.blockChanges = s.blockChanges + 1 :=
  (detectBlockChange_spec cfg s line).2.1 ht

/-- On an unchanged block, `_detect_block_change` keeps the counters
and the instrumentation counter, and the active block is unchanged or
reset to 0. -/
theorem detectBlockChange_false (cfg : Config) (s : SurveyState) (line : List Char)
    (hf : (detectBlockChange cfg s line).2 = false) :
    (detectBlockChange cfg s line).1.counts = s.counts ∧
    (detectBlockChange cfg s line).1.blockChanges = s.blockChanges ∧
    ((detectBlockChange cfg s line).1.activeBlock = s.activeBlock ∨
     (detectBlockChange cfg s line).1.activeBlock = 0) :=
  ⟨(detectBlockChange_spec cfg s line).1, ((detectBlockChange_spec cfg s line).2.2 hf).1,
   ((detectBlockChange_spec cfg s line).2.2 hf).2⟩

/-- `_measure_line` leaves the block-change instrumentation counter
unchanged. -/
theorem measureLine_bc (cfg : Config) (pos neg : SearchDict) (t : SurveyState)
    (line : List Char) (onC : Bool) :
    (measureLine cfg pos neg t line onC).blockChanges = t.blockChanges := by
  unfold measureLine
  dsimp only
  repeat' split
  all_goals
    first
    | rfl
    | exact ((classFields_measureLineImpl cfg _ line _).2.1).trans rfl

/-- The classification tail leaves the block-change instrumentation
counter unchanged. -/
theorem innerLineClassify_bc (cfg : Config) (pos neg : SearchDict) (t : SurveyState)
    (line : List Char) :
    (innerLineClassify cfg pos neg t line).blockChanges = t.blockChanges := by
  unfold innerLineClassify
  dsimp only
  split
  · rfl
  · exact ((classFields_analyzeLine cfg pos neg _ line _).2.1).trans
      ((measureLine_bc cfg pos neg _ line _).trans rfl)

/-- The inner per-line pipeline never decreases the block-change
instrumentation counter. -/
theorem innerLine_bc_le (cfg : Config) (pos neg : SearchDict) (s : SurveyState)
    (rawLine : List Char) :
    s.blockChanges ≤ (innerLine cfg pos neg s rawLine).blockChanges := by
  unfold innerLine
  dsimp only
  split
  · exact Nat.le_refl _
  · split
    · split
      · rename_i hsc
        rw [innerLineClassify_bc]
        dsimp only
        rw [detectBlockChange_true cfg _ _ hsc]
        exact Nat.le_succ _
      · rename_i hsc
        rw [innerLineClassify_bc]
        rw [(detectBlockChange_false cfg _ _ (Bool.of_not_eq_true hsc)).2.1]
    · rw [innerLineClassify_bc]

/-! ### The per-block line-class sum invariant (claim C1) -/

/-- The per-block line-class identity for a state whose active block is
the measured human-code block 0: every per-block line-class counter
list is as long as the total-lines list, and per block the
true-blank/faux-blank/comment/dead-code/template/NBNC counters sum to
the total. -/
def BlockSumInv (s : SurveyState) : Prop :=
  s.activeBlock = 0 ∧
  s.counts.trueBlankLines.length = s.counts.totalLines.length ∧
  s.counts.fauxBlankLines.length = s.counts.totalLines.length ∧
  s.counts.commentLines.length = s.counts.totalLines.length ∧
  s.counts.deadCode.length = s.counts.totalLines.length ∧
  s.counts.templateLines.length = s.counts.totalLines.length ∧
  s.counts.measureLines.length = s.counts.totalLines.length ∧
  ∀ b, s.counts.trueBlankLines.getD b 0 + s.counts.fauxBlankLines.getD b 0 +
    s.counts.commentLines.getD b 0 + s.counts.deadCode.getD b 0 +
    s.counts.templateLines.getD b 0 + s.counts.measureLines.getD b 0 =
    s.counts.totalLines.getD b 0

/-- Either no block transition has happened yet and the line-class
identity holds, or at least one block-change event has fired. -/
def BlockSumOk (s : SurveyState) : Prop :=
  (s.blockChanges = 0 ∧ BlockSumInv s) ∨ 1 ≤ s.blockChanges

/-- `BlockSumOk` only depends on the class fields. -/
theorem blockSumOk_congr {t u : SurveyState} (hc : ClassFields t u) (h : BlockSumOk t) :
    BlockSumOk u := by
  obtain ⟨ha, hb, h1, h2, h3, h4, h5, h6, h7⟩ := hc
  rcases h with ⟨hbc, hab, l1, l2, l3, l4, l5, l6, hsum⟩ | hge
  · refine Or.inl ⟨hb.trans hbc, ha.trans hab, ?_, ?_, ?_, ?_, ?_, ?_, ?_⟩
    · rw [h1, h7]; exact l1
    · rw [h2, h7]; exact l2
    · rw [h3, h7]; exact l3
    · rw [h4, h7]; exact l4
    · rw [h5, h7]; exact l5
    · rw [h6, h7]; exact l6
    · intro b; rw [h1, h2, h3, h4, h5, h6, h7]; exact hsum b
  · exact Or.inr (le_of_le_of_eq hge hb.symm)

/-- `BlockSumInv` transported along class-field agreement, carrying a
block-change equality. -/
theorem blockSumInvBC_congr {t u v : SurveyState} (hc : ClassFields u v)
    (h1 : BlockSumInv u) (h2 : u.blockChanges = t.blockChanges) :
    BlockSumInv v ∧ v.blockChanges = t.blockChanges := by
  obtain ⟨ha, hb, g1, g2, g3, g4, g5, g6, g7⟩ := hc
  obtain ⟨hab, l1, l2, l3, l4, l5, l6, hsum⟩ := h1
  refine ⟨⟨ha.trans hab, ?_, ?_, ?_, ?_, ?_, ?_, ?_⟩, hb.trans h2⟩
  · rw [g1, g7]; exact l1
  · rw [g2, g7]; exact l2
  · rw [g3, g7]; exact l3
  · rw [g4, g7]; exact l4
  · rw [g5, g7]; exact l5
  · rw [g6, g7]; exact l6
  · intro b; rw [g1, g2, g3, g4, g5, g6, g7]; exact hsum b

/-- `_measure_line` on a line of the measured block 0 bumps exactly one
of the comment/dead-code/template/NBNC class counters at block 0, so a
state whose class sum is one short of the total at block 0 is
rebalanced. -/
theorem measureLine_balance (cfg : Config) (pos neg : SearchDict) (t : SurveyState)
    (line : List Char) (onC : Bool) (hmb : cfg.measureBlock = HUMAN_CODE)
    (hab : t.activeBlock = 0)
    (hl1 : t.counts.trueBlankLines.length = t.counts.totalLines.length)
    (hl2 : t.counts.fauxBlankLines.length = t.counts.totalLines.length)
    (hl3 : t.counts.commentLines.length = t.counts.totalLines.length)
    (hl4 : t.counts.deadCode.length = t.counts.totalLines.length)
    (hl5 : t.counts.templateLines.length = t.counts.totalLines.length)
    (hl6 : t.counts.measureLines.length = t.counts.totalLines.length)
    (hdef : ∀ b, t.counts.trueBlankLines.getD b 0 + t.counts.fauxBlankLines.getD b 0 +
      t.counts.commentLines.getD b 0 + t.counts.deadCode.getD b 0 +
      t.counts.templateLines.getD b 0 + t.counts.measureLines.getD b 0 +
      (if b = 0 ∧ 0 < t.counts.totalLines.length then 1 else 0) =
      t.counts.totalLines.getD b 0) :
    BlockSumInv (measureLine cfg pos neg t line onC) ∧
    (measureLine cfg pos neg t line onC).blockChanges = t.blockChanges := by
  unfold measureLine
  split
  · split
    · split
      · -- template line
        refine ⟨⟨hab, hl1, hl2, hl3, hl4, ?_, hl6, ?_⟩, rfl⟩
        · show (bumpAt t.counts.templateLines t.activeBlock 1).length =
            t.counts.totalLines.length
          rw [bumpAt_length]; exact hl5
        · intro b
          show t.counts.trueBlankLines.getD b 0 + t.counts.fauxBlankLines.getD b 0 +
            t.counts.commentLines.getD b 0 + t.counts.deadCode.getD b 0 +
            (bumpAt t.counts.templateLines t.activeBlock 1).getD b 0 +
            t.counts.measureLines.getD b 0 = t.counts.totalLines.getD b 0
          rw [hab, bumpAt_getD, hl5]
          have hd := hdef b
          by_cases hc : b = 0 ∧ 0 < t.counts.totalLines.length
          · rw [if_pos hc]; rw [if_pos hc] at hd; omega
          · rw [if_neg hc]; rw [if_neg hc] at hd; omega
      · split
        · -- dead code line
          refine ⟨⟨hab, hl1, hl2, hl3, ?_, hl5, hl6, ?_⟩, rfl⟩
          · show (bumpAt t.counts.deadCode t.activeBlock 1).length =
              t.counts.totalLines.length
            rw [bumpAt_length]; exact hl4
          · intro b
            show t.counts.trueBlankLines.getD b 0 + t.counts.fauxBlankLines.getD b 0 +
              t.counts.commentLines.getD b 0 +
              (bumpAt t.counts.deadCode t.activeBlock 1).getD b 0 +
              t.counts.templateLines.getD b 0 +
              t.counts.measureLines.getD b 0 = t.counts.totalLines.getD b 0
            rw [hab, bumpAt_getD, hl4]
            have hd := hdef b
            by_cases hc : b = 0 ∧ 0 < t.counts.totalLines.length
            · rw [if_pos hc]; rw [if_pos hc] at hd; omega
            · rw [if_neg hc]; rw [if_neg hc] at hd; omega
        · -- plain comment line
          refine ⟨⟨hab, hl1, hl2, ?_, hl4, hl5, hl6, ?_⟩, rfl⟩
          · show (bumpAt t.counts.commentLines t.activeBlock 1).length =
              t.counts.totalLines.length
            rw [bumpAt_length]; exact hl3
          · intro b
            show t.counts.trueBlankLines.getD b 0 + t.counts.fauxBlankLines.getD b 0 +
              (bumpAt t.counts.commentLines t.activeBlock 1).getD b 0 +
              t.counts.deadCode.getD b 0 + t.counts.templateLines.getD b 0 +
              t.counts.measureLines.getD b 0 = t.counts.totalLines.getD b 0
            rw [hab, bumpAt_getD, hl3]
            have hd := hdef b
            by_cases hc : b = 0 ∧ 0 < t.counts.totalLines.length
            · rw [if_pos hc]; rw [if_pos hc] at hd; omega
            · rw [if_neg hc]; rw [if_neg hc] at hd; omega
    · -- code line: NBNC bump then the detail measurements
      dsimp only
      split
      · refine blockSumInvBC_congr (classFields_measureLineImpl cfg _ line _) ?_ rfl
        refine ⟨hab, hl1, hl2, hl3, hl4, hl5, ?_, ?_⟩
        · show (bumpAt t.counts.measureLines t.activeBlock 1).length =
            t.counts.totalLines.length
          rw [bumpAt_length]; exact hl6
        · intro b
          show t.counts.trueBlankLines.getD b 0 + t.counts.fauxBlankLines.getD b 0 +
            t.counts.commentLines.getD b 0 + t.counts.deadCode.getD b 0 +
            t.counts.templateLines.getD b 0 +
            (bumpAt t.counts.measureLines t.activeBlock 1).getD b 0 =
            t.counts.totalLines.getD b 0
          rw [hab, bumpAt_getD, hl6]
          have hd := hdef b
          by_cases hc : b = 0 ∧ 0 < t.counts.totalLines.length
          · rw [if_pos hc]; rw [if_pos hc] at hd; omega
          · rw [if_neg hc]; rw [if_neg hc] at hd; omega
      · refine blockSumInvBC_congr (classFields_measureLineImpl cfg _ line _) ?_ rfl
        refine ⟨hab, hl1, hl2, hl3, hl4, hl5, ?_, ?_⟩
        · show (bumpAt t.counts.measureLines t.activeBlock 1).length =
            t.counts.totalLines.length
          rw [bumpAt_length]; exact hl6
        · intro b
          show t.counts.trueBlankLines.getD b 0 + t.counts.fauxBlankLines.getD b 0 +
            t.counts.commentLines.getD b 0 + t.counts.deadCode.getD b 0 +
            t.counts.templateLines.getD b 0 +
            (bumpAt t.counts.measureLines t.activeBlock 1).getD b 0 =
            t.counts.totalLines.getD b 0
          rw [hab, bumpAt_getD, hl6]
          have hd := hdef b
          by_cases hc : b = 0 ∧ 0 < t.counts.totalLines.length
          · rw [if_pos hc]; rw [if_pos hc] at hd; omega
          · rw [if_neg hc]; rw [if_neg hc] at hd; omega
  · rename_i hne
    exact absurd (hab.trans hmb.symm) hne

/-- The classification tail rebalances a state whose class sum is one
short of the total at block 0 (the just-counted line is classified as
faux blank, comment, dead code, template or NBNC). -/
theorem blockSumOk_innerLineClassify (cfg : Config) (pos neg : SearchDict)
    (hmb : cfg.measureBlock = HUMAN_CODE) (t : SurveyState) (line : List Char)
    (hbt : t.blockChanges = 0) (habt : t.activeBlock = 0)
    (hl1 : t.counts.trueBlankLines.length = t.counts.totalLines.length)
    (hl2 : t.counts.fauxBlankLines.length = t.counts.totalLines.length)
    (hl3 : t.counts.commentLines.length = t.counts.totalLines.length)
    (hl4 : t.counts.deadCode.length = t.counts.totalLines.length)
    (hl5 : t.counts.templateLines.length = t.counts.totalLines.length)
    (hl6 : t.counts.measureLines.length = t.counts.totalLines.length)
    (hdef : ∀ b, t.counts.trueBlankLines.getD b 0 + t.counts.fauxBlankLines.getD b 0 +
      t.counts.commentLines.getD b 0 + t.counts.deadCode.getD b 0 +
      t.counts.templateLines.getD b 0 + t.counts.measureLines.getD b 0 +
      (if b = 0 ∧ 0 < t.counts.totalLines.length then 1 else 0) =
      t.counts.totalLines.getD b 0) :
    BlockSumOk (innerLineClassify cfg pos neg t line) := by
  unfold innerLineClassify
  dsimp only
  split
  · refine Or.inl ⟨hbt, habt, hl1, ?_, hl3, hl4, hl5, hl6, ?_⟩
    · show (bumpAt t.counts.fauxBlankLines t.activeBlock 1).length =
        t.counts.totalLines.length
      rw [bumpAt_length]; exact hl2
    · intro b
      show t.counts.trueBlankLines.getD b 0 +
        (bumpAt t.counts.fauxBlankLines t.activeBlock 1).getD b 0 +
        t.counts.commentLines.getD b 0 + t.counts.deadCode.getD b 0 +
        t.counts.templateLines.getD b 0 + t.counts.measureLines.getD b 0 =
        t.counts.totalLines.getD b 0
      rw [habt, bumpAt_getD, hl2]
      have hd := hdef b
      by_cases hc : b = 0 ∧ 0 < t.counts.totalLines.length
      · rw [if_pos hc]; rw [if_pos hc] at hd; omega
      · rw [if_neg hc]; rw [if_neg hc] at hd; omega
  · refine blockSumOk_congr (classFields_analyzeLine cfg pos neg _ line _) ?_
    have hbal := measureLine_balance cfg pos neg
      { t with scanningMultiLine := (detectLineComment cfg t.scanningMultiLine line).2 } line
      (detectLineComment cfg t.scanningMultiLine line).1 hmb habt hl1 hl2 hl3 hl4 hl5 hl6 hdef
    exact Or.inl ⟨hbal.2.trans hbt, hbal.1⟩

/-- One inner line preserves `BlockSumOk` when block 0 is the measured
block. -/
theorem blockSumOk_innerLine (cfg : Config) (pos neg : SearchDict)
    (hmb : cfg.measureBlock = HUMAN_CODE) (s : SurveyState) (rawLine : List Char)
    (h : BlockSumOk s) : BlockSumOk (innerLine cfg pos neg s rawLine) := by
  rcases h with ⟨hbc, hab, hl1, hl2, hl3, hl4, hl5, hl6, hsum⟩ | hge
  · unfold innerLine
    dsimp only
    split
    · refine Or.inl ⟨hbc, hab, ?_, ?_, ?_, ?_, ?_, ?_, ?_⟩
      · show (bumpAt s.counts.trueBlankLines s.activeBlock 1).length =
          (bumpAt s.counts.totalLines s.activeBlock 1).length
        rw [bumpAt_length, bumpAt_length]; exact hl1
      · show s.counts.fauxBlankLines.length = (bumpAt s.counts.totalLines s.activeBlock 1).length
        rw [bumpAt_length]; exact hl2
      · show s.counts.commentLines.length = (bumpAt s.counts.totalLines s.activeBlock 1).length
        rw [bumpAt_length]; exact hl3
      · show s.counts.deadCode.length = (bumpAt s.counts.totalLines s.activeBlock 1).length
        rw [bumpAt_length]; exact hl4
      · show s.counts.templateLines.length = (bumpAt s.counts.totalLines s.activeBlock 1).length
        rw [bumpAt_length]; exact hl5
      · show s.counts.measureLines.length = (bumpAt s.counts.totalLines s.activeBlock 1).length
        rw [bumpAt_length]; exact hl6
      · intro b
        show (bumpAt s.counts.trueBlankLines s.activeBlock 1).getD b 0 +
          s.counts.fauxBlankLines.getD b 0 + s.counts.commentLines.getD b 0 +
          s.counts.deadCode.getD b 0 + s.counts.templateLines.getD b 0 +
          s.counts.measureLines.getD b 0 =
          (bumpAt s.counts.totalLines s.activeBlock 1).getD b 0
        rw [hab, bumpAt_getD, bumpAt_getD, hl1]
        have hd := hsum b
        by_cases hc : b = 0 ∧ 0 < s.counts.totalLines.length
        · rw [if_pos hc]; omega
        · rw [if_neg hc]; omega
    · split
      · split
        · -- a block change fired: at least one event recorded
          rename_i hsc
          refine Or.inr ?_
          rw [innerLineClassify_bc]
          dsimp only
          rw [detectBlockChange_true cfg _ _ hsc]
          exact Nat.le_add_left 1 _
        · -- no block change: classify the line in the unchanged block
          rename_i hsc
          have hf := detectBlockChange_false cfg _ _ (Bool.of_not_eq_true hsc)
          refine blockSumOk_innerLineClassify cfg pos neg hmb _ (preprocessLine cfg rawLine)
            (hf.2.1.trans hbc) ?_ ?_ ?_ ?_ ?_ ?_ ?_ ?_
          · rcases hf.2.2 with hx | hx
            · exact hx.trans hab
            · exact hx
          all_goals rw [hf.1]
          · show s.counts.trueBlankLines.length =
              (bumpAt s.counts.totalLines s.activeBlock 1).length
            rw [bumpAt_length]; exact hl1
          · show s.counts.fauxBlankLines.length =
              (bumpAt s.counts.totalLines s.activeBlock 1).length
            rw [bumpAt_length]; exact hl2
          · show s.counts.commentLines.length =
              (bumpAt s.counts.totalLines s.activeBlock 1).length
            rw [bumpAt_length]; exact hl3
          · show s.counts.deadCode.length =
              (bumpAt s.counts.totalLines s.activeBlock 1).length
            rw [bumpAt_length]; exact hl4
          · show s.counts.templateLines.length =
              (bumpAt s.counts.totalLines s.activeBlock 1).length
            rw [bumpAt_length]; exact hl5
          · show s.counts.measureLines.length =
              (bumpAt s.counts.totalLines s.activeBlock 1).length
            rw [bumpAt_length]; exact hl6
          · intro b
            show s.counts.trueBlankLines.getD b 0 + s.counts.fauxBlankLines.getD b 0 +
              s.counts.commentLines.getD b 0 + s.counts.deadCode.getD b 0 +
              s.counts.templateLines.getD b 0 + s.counts.measureLines.getD b 0 +
              (if b = 0 ∧ 0 < (bumpAt s.counts.totalLines s.activeBlock 1).length
               then 1 else 0) =
              (bumpAt s.counts.totalLines s.activeBlock 1).getD b 0
            rw [bumpAt_length, hab, bumpAt_getD]
            have hd := hsum b
            by_cases hc : b = 0 ∧ 0 < s.counts.totalLines.length
            · rw [if_pos hc]; omega
            · rw [if_neg hc]; omega
      · refine blockSumOk_innerLineClassify cfg pos neg hmb _ (preprocessLine cfg rawLine)
          hbc hab ?_ ?_ ?_ ?_ ?_ ?_ ?_
        · show s.counts.trueBlankLines.length =
            (bumpAt s.counts.totalLines s.activeBlock 1).length
          rw [bumpAt_length]; exact hl1
        · show s.counts.fauxBlankLines.length =
            (bumpAt s.counts.totalLines s.activeBlock 1).length
          rw [bumpAt_length]; exact hl2
        · show s.counts.commentLines.length =
            (bumpAt s.counts.totalLines s.activeBlock 1).length
          rw [bumpAt_length]; exact hl3
        · show s.counts.deadCode.length =
            (bumpAt s.counts.totalLines s.activeBlock 1).length
          rw [bumpAt_length]; exact hl4
        · show s.counts.templateLines.length =
            (bumpAt s.counts.totalLines s.activeBlock 1).length
          rw [bumpAt_length]; exact hl5
        · show s.counts.measureLines.length =
            (bumpAt s.counts.totalLines s.activeBlock 1).length
          rw [bumpAt_length]; exact hl6
        · intro b
          show s.counts.trueBlankLines.getD b 0 + s.counts.fauxBlankLines.getD b 0 +
            s.counts.commentLines.getD b 0 + s.counts.deadCode.getD b 0 +
            s.counts.templateLines.getD b 0 + s.counts.measureLines.getD b 0 +
            (if b = 0 ∧ 0 < (bumpAt s.counts.totalLines s.activeBlock 1).length
             then 1 else 0) =
            (bumpAt s.counts.totalLines s.activeBlock 1).getD b 0
          rw [bumpAt_length, hab, bumpAt_getD]
          have hd := hsum b
          by_cases hc : b = 0 ∧ 0 < s.counts.totalLines.length
          · rw [if_pos hc]; omega
          · rw [if_neg hc]; omega
  · exact Or.inr (le_trans hge (innerLine_bc_le cfg pos neg s rawLine))

/-- Folding a step that preserves a state predicate preserves it. -/
theorem foldl_preserve (P : SurveyState → Prop) (f : SurveyState → List Char → SurveyState)
    (hf : ∀ t x, P t → P (f t x)) :
    ∀ (ls : List (List Char)) (t : SurveyState), P t → P (ls.foldl f t)
  | [], _, ht => ht
  | x :: xs, t, ht => foldl_preserve P f hf xs (f t x) (hf t x ht)

/-- One buffered line preserves `BlockSumOk` when block 0 is the
measured block. -/
theorem blockSumOk_processLine (cfg : Config) (pos neg : SearchDict)
    (hmb : cfg.measureBlock = HUMAN_CODE) (s : SurveyState) (bufferLine : List Char)
    (h : BlockSumOk s) : BlockSumOk (processLine cfg pos neg s bufferLine) := by
  unfold processLine
  dsimp only
  split
  · exact h
  · exact foldl_preserve BlockSumOk _
      (fun t x => blockSumOk_innerLine cfg pos neg hmb t x) _ _ h

/-- The initial survey state satisfies `BlockSumOk`. -/
theorem blockSumOk_surveyStart (cfg : Config) : BlockSumOk (surveyStart cfg) := by
  refine Or.inl ⟨rfl, rfl, rfl, rfl, rfl, rfl, rfl, rfl, ?_⟩
  intro b
  show (List.replicate cfg.blockDetectors.length 0).getD b 0 +
    (List.replicate cfg.blockDetectors.length 0).getD b 0 +
    (List.replicate cfg.blockDetectors.length 0).getD b 0 +
    (List.replicate cfg.blockDetectors.length 0).getD b 0 +
    (List.replicate cfg.blockDetectors.length 0).getD b 0 +
    (List.replicate cfg.blockDetectors.length 0).getD b 0 =
    (List.replicate cfg.blockDetectors.length 0).getD b 0
  simp only [getD_replicate_zero]

/-- The final survey state satisfies `BlockSumOk` when block 0 is the
measured block. -/
theorem blockSumOk_survey (cfg : Config) (lines : List (List Char))
    (hmb : cfg.measureBlock = HUMAN_CODE) : BlockSumOk ((survey cfg lines).1) := by
  refine blockSumOk_congr
    (classFields_saveRoutineInfo cfg (surveyLines cfg lines)
      (surveyLines cfg lines).activeBlock) ?_
  unfold surveyLines
  dsimp only
  exact foldl_preserve BlockSumOk _
    (fun t x => blockSumOk_processLine cfg _ _ hmb t x) _ _ (blockSumOk_surveyStart cfg)

/-- Claim C1 (amended): for every configuration measuring the human
code block (block 0) and every input on which no block-change event
fires, the per-block counters satisfy TrueBlankLines[b] +
FauxBlankLines[b] + CommentLines[b] + DeadCode[b] + TemplateLines[b] +
MeasureLines[b] = TotalLines[b] for every block index b. (The original
four-term sum omits the dead-code and template reclassifications of
comment lines, and on a line that changes blocks the total is counted
in the old block while the class lands in the new one.) -/
theorem C1_block_line_sum (cfg : Config) (lines : List (List Char))
    (hmb : cfg.measureBlock = HUMAN_CODE)
    (hbc : (survey cfg lines).1.blockChanges = 0) :
    ∀ b, (survey cfg lines).1.counts.trueBlankLines.getD b 0 +
      (survey cfg lines).1.counts.fauxBlankLines.getD b 0 +
      (survey cfg lines).1.counts.commentLines.getD b 0 +
      (survey cfg lines).1.counts.deadCode.getD b 0 +
      (survey cfg lines).1.counts.templateLines.getD b 0 +
      (survey cfg lines).1.counts.measureLines.getD b 0 =
      (survey cfg lines).1.counts.totalLines.getD b 0 := by
  rcases blockSumOk_survey cfg lines hmb with ⟨_, _, _, _, _, _, _, _, hsum⟩ | hge
  · exact hsum
  · rw [hbc] at hge
    exact absurd hge (by decide)

/-- Claim C1 witness: the amended identity applied to the 5-line
C-style scenario under the default measure configuration, at block 0. -/
theorem C1_block_line_sum_witness :
    cfgMeasure.measureBlock = HUMAN_CODE ∧
    (survey cfgMeasure linesFive).1.blockChanges = 0 ∧
    (survey cfgMeasure linesFive).1.counts.trueBlankLines.getD 0 0 +
      (survey cfgMeasure linesFive).1.counts.fauxBlankLines.getD 0 0 +
      (survey cfgMeasure linesFive).1.counts.commentLines.getD 0 0 +
      (survey cfgMeasure linesFive).1.counts.deadCode.getD 0 0 +
      (survey cfgMeasure linesFive).1.counts.templateLines.getD 0 0 +
      (survey cfgMeasure linesFive).1.counts.measureLines.getD 0 0 =
      (survey cfgMeasure linesFive).1.counts.totalLines.getD 0 0 :=
  ⟨rfl, by decide, C1_block_line_sum cfgMeasure linesFive rfl (by decide) 0⟩
